import Mathlib

/-!
Verification development for the combat core of GoMud (src/combat/combat.go).

The combat package is embedded shallowly: pure Go functions become Lean
functions, the process-wide random source becomes an explicit stream of
naturals consumed head-first, the util.LogRoll audit log becomes an explicit
list of entries, and the one cross-cutting mutation (the attacker's aggro
record, shared by pointer with the caller's live character record) is threaded
through the round state explicitly.  combat.go performs a handful of float64
computations (math.Ceil, math.Round, float division); at the magnitudes
arising there these denote exact rational values, and they are embedded as
exact integer arithmetic on those rationals: for a positive divisor d,
Lean's Int division `/` (Euclidean) is floor division, so
ceil(a/d) = (a+d-1)/d, trunc(a/d) is floor with a sign split, and
round-half-away-from-zero(a/d) = (2a+d)/(2d) with a sign split.
External collaborators (characters, items, rooms, templates, util) are not
part of src/ and are modelled from the spec where combat.go depends on them;
each such definition is marked "Modelled from the spec".
-/

set_option maxHeartbeats 1000000

namespace GoMud

/-- Floor division is Euclidean division for positive divisors; this helper
states ceil(a/b) for b > 0 as (a + b - 1) / b. -/
def ceilDiv (a b : Int) : Int := (a + b - 1) / b

/-- Go's int(float64(a)/float64(b)) truncation toward zero, for b > 0, on the
exact rational a/b. -/
def truncDiv (a b : Int) : Int := if a < 0 then -((-a) / b) else a / b

/-- Go's math.Round (round half away from zero) of the exact rational a/b,
for b > 0. -/
def mathRoundDiv (a b : Int) : Int :=
  if a < 0 then -((-a * 2 + b) / (b * 2)) else (a * 2 + b) / (b * 2)

/-- Labels for the audit log written via util.LogRoll in combat.go
(lines 228, 501, 530). -/
inductive RollLabel
  | hits
  | crits
  | bothWeapons
deriving DecidableEq, Repr

/-- One audit-log entry. Modelled from the spec: util.LogRoll is external; the
spec (section 6) says every named probabilistic decision records its label,
roll and threshold. -/
structure RollLogEntry where
  label : RollLabel
  roll : Nat
  target : Int
deriving DecidableEq, Repr

/-- Modelled from the spec: util.Rand(n) is external; the spec (section 6) says
it returns a uniform integer in [0,n).  The random source is modelled as a
stream of naturals consumed head-first, reduced into range by mod; an exhausted
stream, or n = 0 (where [0,n) is empty), yields 0. -/
def rand (n : Nat) (g : List Nat) : Nat × List Nat :=
  match g with
  | [] => (0, [])
  | h :: t => (if n = 0 then 0 else h % n, t)

/-- Modelled from the spec: util.RollDice(count, sides) is external; the spec
(section 6) says it returns the sum of count independent uniform draws in
[1, sides]. -/
def rollDice : Nat → Nat → List Nat → Nat × List Nat
  | 0, _, g => (0, g)
  | n + 1, sides, g =>
    let d := rand sides g
    let rest := rollDice n sides d.2
    ((if sides = 0 then 0 else d.1 + 1) + rest.1, rest.2)

/-- hitChance, combat.go lines 474-480:
30 + int(float64(attackSpd)/atkPlusDef*70), with the speed sum floored at 1.
The float expression denotes the exact rational attackSpd*70/atkPlusDef. -/
def hitChance (attackSpd defendSpd : Int) : Int :=
  let atkPlusDef := attackSpd + defendSpd
  let atkPlusDef := if atkPlusDef < 1 then 1 else atkPlusDef
  30 + truncDiv (attackSpd * 70) atkPlusDef

/-- The final to-hit percentage of Hits, combat.go lines 485-498: the modifier
is added (toHit += hitModifier) and the result clamped to [5,95]. -/
def effectiveToHit (attackSpd defendSpd hitModifier : Int) : Int :=
  let toHit := hitChance attackSpd defendSpd
  let toHit := if hitModifier ≠ 0 then toHit + hitModifier else toHit
  let toHit := if toHit < 5 then 5 else toHit
  if toHit > 95 then 95 else toHit

/-- Hits, combat.go lines 483-504: draw one integer in [0,100), log it, and
hit iff the draw is strictly below the clamped percentage. -/
def Hits (attackSpd defendSpd hitModifier : Int) (g : List Nat)
    (log : List RollLogEntry) : Bool × List Nat × List RollLogEntry :=
  let toHit := effectiveToHit attackSpd defendSpd hitModifier
  let hr := rand 100 g
  (decide ((hr.1 : Int) < toHit), hr.2, log ++ [⟨RollLabel.hits, hr.1, toHit⟩])

/-- The User/Mob role tag, combat.go lines 21-26. -/
inductive SourceTarget
  | user
  | mob
deriving DecidableEq, Repr

/-- Targeting modes read by combat.go (characters.BackStab /
characters.DefaultAttack). Modelled from the spec: a one-shot opening-strike
mode versus the default attack mode. -/
inductive AggroType
  | defaultAttack
  | backStab
deriving DecidableEq, Repr

/-- Modelled from the spec: the aggro/targeting record of the external
characters package; combat.go reads Aggro.Type, Aggro.UserId and
Aggro.MobInstanceId and writes the record back through SetAggro. -/
structure Aggro where
  userId : Nat
  mobInstanceId : Nat
  type : AggroType
deriving DecidableEq, Repr

/-- Item type classification (items.Weapon versus anything else). -/
inductive ItemType
  | weapon
  | nonWeapon
deriving DecidableEq, Repr

/-- Item subtype classification; combat.go tests items.Claws and uses
items.Generic as the unarmed default. -/
inductive ItemSubtype
  | generic
  | claws
  | bladed
  | blunt
deriving DecidableEq, Repr

/-- Modelled from the spec: items.Item together with its external
GetSpec()/GetDiceRoll()/DisplayName() lookups.  Identity is present/absent via
the itemId 0 sentinel; the dice specification is (attacks, die count, die
sides, flat bonus, on-crit buff ids). -/
structure Item where
  itemId : Nat
  itemType : ItemType
  subtype : ItemSubtype
  displayName : String
  attacks : Nat
  dCount : Nat
  dSides : Nat
  dBonus : Nat
  critBuffs : List Nat
deriving DecidableEq, Repr

/-- The synthetic "empty hands" weapon, combat.go lines 211-215. -/
def emptyHands : Item :=
  { itemId := 0, itemType := ItemType.nonWeapon, subtype := ItemSubtype.generic
    displayName := "", attacks := 0, dCount := 0, dSides := 0, dBonus := 0
    critBuffs := [] }

/-- Adjusted stats read by combat.go (Stats.Speed.ValueAdj,
Stats.Strength.ValueAdj). -/
structure Stats where
  speedAdj : Int
  strengthAdj : Int
deriving DecidableEq, Repr

/-- Modelled from the spec: characters.Character is external.  This combat view
carries exactly the accessors combat.go reads: names, level, adjusted stats,
health, room id, equipped weapon and offhand, the dual-wield skill tier
(GetSkillLevel(skills.DualWield)), the aggro record (shared by pointer with the
caller's live record, spec sections 5 and 9), the defense rating
(GetDefense()), the racial default dice roll (GetDefaultDiceRoll()), and the
buff-flag memberships combat.go tests (hidden, accuracy, blink). -/
structure Character where
  name : String
  mobName : String
  raceId : Nat
  level : Int
  stats : Stats
  health : Int
  roomId : Nat
  weapon : Item
  offhand : Item
  dualWieldLevel : Nat
  aggro : Aggro
  defense : Nat
  defAttacks : Nat
  defDCount : Nat
  defDSides : Nat
  defDBonus : Nat
  defCritBuffs : List Nat
  hasHidden : Bool
  hasAccuracy : Bool
  hasBlink : Bool
deriving DecidableEq, Repr

/-- The crit-chance pipeline of Crits, combat.go lines 509-526: base
5 + round((strength+speed)/levelDiff) with levelDiff floored at 1, doubled
under the source's accuracy buff, then integer-halved under the target's blink
buff (Go `/= 2` truncates toward zero), then re-floored at 5. -/
def critChanceOf (sourceChar targetChar : Character) : Int :=
  let levelDiff := sourceChar.level - targetChar.level
  let levelDiff := if levelDiff < 1 then 1 else levelDiff
  let c := 5 + mathRoundDiv
    (sourceChar.stats.strengthAdj + sourceChar.stats.speedAdj) levelDiff
  let c := if sourceChar.hasAccuracy then c * 2 else c
  let c := if targetChar.hasBlink then truncDiv c 2 else c
  if c < 5 then 5 else c

/-- Crits, combat.go lines 507-533: draw one integer in [0,100), log it, and
crit iff the draw is strictly below the chance. -/
def Crits (sourceChar targetChar : Character) (g : List Nat)
    (log : List RollLogEntry) : Bool × List Nat × List RollLogEntry :=
  let c := critChanceOf sourceChar targetChar
  let cr := rand 100 g
  (decide ((cr.1 : Int) < c), cr.2, log ++ [⟨RollLabel.crits, cr.1, c⟩])

/-- The attack-cycle count, combat.go lines 190-193:
int(math.Ceil(float64(speed delta) / 25)), floored at 1. -/
def attackCount (sourceSpd targetSpd : Int) : Int :=
  let ac := ceilDiv (sourceSpd - targetSpd) 25
  if ac < 1 then 1 else ac

example : hitChance 100 50 = 76 := by decide
example : attackCount 100 50 = 2 := by decide
example : attackCount 50 50 = 1 := by decide
example : attackCount 125 50 = 3 := by decide
example : mathRoundDiv 5 2 = 3 := by decide
example : mathRoundDiv (-5) 2 = -3 := by decide
example : truncDiv (-7) 2 = -3 := by decide

/-- The closed token vocabulary of the message templates (items.Token*). -/
inductive TokenName
  | itemName
  | source
  | sourceType
  | target
  | targetType
  | usesLeft
  | damage
  | entranceName
  | exitName
deriving DecidableEq, Repr

/-- A together-variant message bundle (attacker, defender, shared room). -/
structure MsgTogether where
  toAttacker : String
  toDefender : String
  toRoom : String
deriving DecidableEq, Repr

/-- A separate-variant message bundle (attacker, defender, each room). -/
structure MsgSeparate where
  toAttacker : String
  toDefender : String
  toAttackerRoom : String
  toDefenderRoom : String
deriving DecidableEq, Repr

/-- Modelled from the spec: the template bundle returned by the external
items.GetAttackMessage / items.GetPreAttackMessage lookups, with "together"
and "separate" message variants per audience (spec section 6); the per-message
Get() variant selection is folded into the lookup. -/
structure ItemMessages where
  together : MsgTogether
  separate : MsgSeparate
deriving DecidableEq, Repr

/-- Modelled from the spec: a room exposes a mapping from exit name to
destination room id (spec section 6). -/
structure Room where
  exits : List (String × Nat)
deriving DecidableEq, Repr

/-- Modelled from the spec: the external collaborators combat.go calls into.
getAttackMessage is keyed by weapon subtype and severity, getPreAttackMessage
by subtype and step intensity; ansiParse is the opaque markup renderer;
setTokenValue is items.ItemMessage.SetTokenValue; loadRoom is rooms.LoadRoom
(absent rooms are a normal branch); raceUnarmedName is
races.GetRace(raceId).UnarmedName. -/
structure Env where
  getAttackMessage : ItemSubtype → Int → ItemMessages
  getPreAttackMessage : ItemSubtype → Nat → ItemMessages
  ansiParse : String → String
  setTokenValue : String → TokenName → String → String
  loadRoom : Nat → Option Room
  raceUnarmedName : Nat → String

/-- The aggregated result object, combat.go's AttackResult.  Modelled from the
spec (section 3): cumulative damage and reduction on both sides, hit and crit
flags, the on-crit buff set for the target, and four outbound message channels
holding zero or more rendered strings. -/
structure AttackResult where
  hit : Bool := false
  crit : Bool := false
  buffTarget : List Nat := []
  damageToTarget : Int := 0
  damageToTargetReduction : Int := 0
  damageToSource : Int := 0
  damageToSourceReduction : Int := 0
  toSource : List String := []
  toTarget : List String := []
  toSourceRoom : List String := []
  toTargetRoom : List String := []
deriving DecidableEq, Repr

/-- Modelled from the spec: SendToSource appends a rendered string to the
to-source channel (spec section 4.6: appended, never overwritten). -/
def AttackResult.sendToSource (r : AttackResult) (s : String) : AttackResult :=
  { r with toSource := r.toSource ++ [s] }

/-- Modelled from the spec: SendToTarget appends to the to-target channel. -/
def AttackResult.sendToTarget (r : AttackResult) (s : String) : AttackResult :=
  { r with toTarget := r.toTarget ++ [s] }

/-- Modelled from the spec: SendToSourceRoom appends to the source-room
channel. -/
def AttackResult.sendToSourceRoom (r : AttackResult) (s : String) : AttackResult :=
  { r with toSourceRoom := r.toSourceRoom ++ [s] }

/-- Modelled from the spec: SendToTargetRoom appends to the target-room
channel. -/
def AttackResult.sendToTargetRoom (r : AttackResult) (s : String) : AttackResult :=
  { r with toTargetRoom := r.toTargetRoom ++ [s] }

/-- string(sourceType): the role tag as a string. -/
def sourceTargetStr : SourceTarget → String
  | SourceTarget.user => "user"
  | SourceTarget.mob => "mob"

/-- The exit-table search of combat.go lines 121-139 and 359-376: load a room
and return the name of the first exit leading to the destination, if any.
Go iterates a map in unspecified order; the model uses list order. -/
def findExitName (env : Env) (roomId destRoomId : Nat) : Option String :=
  match env.loadRoom roomId with
  | none => none
  | some room =>
    match room.exits.find? (fun e => e.2 == destRoomId) with
    | none => none
    | some e => some e.1

/-- One step of the token-substitution loop of GetWaitMessages (combat.go
lines 154-161); the quadruple is (attacker, defender, attackerRoom,
defenderRoom).  Line 159 assigns the defender-room message from the
already-substituted attacker-room message (as written in the source). -/
def waitTokenStep (env : Env) (st : String × String × String × String)
    (tv : TokenName × String) : String × String × String × String :=
  let a := env.setTokenValue st.1 tv.1 tv.2
  let d := env.setTokenValue st.2.1 tv.1 tv.2
  let ar := env.setTokenValue st.2.2.1 tv.1 tv.2
  let dr := if 0 < st.2.2.2.length then env.setTokenValue ar tv.1 tv.2 else st.2.2.2
  (a, d, ar, dr)

/-- One step of the token-substitution loop of calculateCombat (combat.go
lines 391-398); here the defender-room message is substituted in place when
non-empty. -/
def attackTokenStep (env : Env) (st : String × String × String × String)
    (tv : TokenName × String) : String × String × String × String :=
  let a := env.setTokenValue st.1 tv.1 tv.2
  let d := env.setTokenValue st.2.1 tv.1 tv.2
  let ar := env.setTokenValue st.2.2.1 tv.1 tv.2
  let dr := if 0 < st.2.2.2.length then env.setTokenValue st.2.2.2 tv.1 tv.2 else st.2.2.2
  (a, d, ar, dr)

/-- The token-replacement table shared by GetWaitMessages (lines 95-105, with
the updates of lines 122-152) and calculateCombat (lines 332-342, updates
359-389): Go builds a map and mutates some entries before iterating; the model
computes the final entry values and lists them in source order (substitution
over distinct tokens is insensitive to map iteration order). -/
def tokenTable (env : Env) (sourceChar targetChar : Character)
    (sourceType targetType : SourceTarget) (itemNameVal damageVal : String) :
    List (TokenName × String) :=
  let together := sourceChar.roomId == targetChar.roomId
  let exitNameVal := if together then "unknown"
    else (findExitName env sourceChar.roomId targetChar.roomId).getD "unknown"
  let entranceNameVal := if together then "unknown"
    else (findExitName env targetChar.roomId sourceChar.roomId).getD "unknown"
  let itemNameVal := if sourceChar.weapon.itemId > 0 then sourceChar.weapon.displayName
    else itemNameVal
  let sourceVal := if sourceType == SourceTarget.mob then sourceChar.mobName
    else sourceChar.name
  let targetVal := if targetType == SourceTarget.mob then targetChar.mobName
    else targetChar.name
  [(TokenName.itemName, itemNameVal),
   (TokenName.source, sourceVal),
   (TokenName.sourceType, sourceTargetStr sourceType ++ "name"),
   (TokenName.target, targetVal),
   (TokenName.targetType, sourceTargetStr targetType ++ "name"),
   (TokenName.usesLeft, "[Invalid]"),
   (TokenName.damage, damageVal),
   (TokenName.entranceName, entranceNameVal),
   (TokenName.exitName, exitNameVal)]

/-- GetWaitMessages, combat.go lines 87-184: pre-attack narration with the
hidden-source visibility rule (lines 163-181): the to-source message is always
considered, but the to-target and both room messages are sent only when the
source does not have the hidden buff flag. -/
def GetWaitMessages (env : Env) (stepType : Nat)
    (sourceChar targetChar : Character)
    (sourceType targetType : SourceTarget) : AttackResult :=
  let attackResult : AttackResult := {}
  let msgs := env.getPreAttackMessage sourceChar.weapon.subtype stepType
  let together := sourceChar.roomId == targetChar.roomId
  let toAttackerMsg := if together then msgs.together.toAttacker else msgs.separate.toAttacker
  let toDefenderMsg := if together then msgs.together.toDefender else msgs.separate.toDefender
  let toAttackerRoomMsg := if together then msgs.together.toRoom else msgs.separate.toAttackerRoom
  let toDefenderRoomMsg := if together then "" else msgs.separate.toDefenderRoom
  let tokens := tokenTable env sourceChar targetChar sourceType targetType
    (env.raceUnarmedName sourceChar.raceId) "[Invalid]"
  let q := tokens.foldl (waitTokenStep env)
    (toAttackerMsg, toDefenderMsg, toAttackerRoomMsg, toDefenderRoomMsg)
  let attackResult := if q.1 ≠ "" then attackResult.sendToSource (env.ansiParse q.1)
    else attackResult
  if sourceChar.hasHidden then attackResult
  else
    let attackResult := if q.2.1 ≠ "" then attackResult.sendToTarget (env.ansiParse q.2.1)
      else attackResult
    let attackResult := if q.2.2.1 ≠ "" then
        attackResult.sendToSourceRoom (env.ansiParse q.2.2.1)
      else attackResult
    if q.2.2.2 ≠ "" then attackResult.sendToTargetRoom (env.ansiParse q.2.2.2)
    else attackResult

/-- The per-weapon attack data of combat.go lines 272-289 (racial defaults,
overridden by the item's dice roll when a real weapon is present). -/
structure WeaponInfo where
  weaponName : String
  weaponSubType : ItemSubtype
  attacks : Nat
  dCount : Nat
  dSides : Nat
  dBonus : Nat
  critBuffs : List Nat
deriving DecidableEq, Repr

/-- Lines 272-289: weapon info for one attacking weapon. -/
def weaponParams (env : Env) (sourceChar : Character) (weapon : Item) : WeaponInfo :=
  if weapon.itemId > 0 then
    { weaponName := weapon.displayName, weaponSubType := weapon.subtype
      attacks := weapon.attacks, dCount := weapon.dCount, dSides := weapon.dSides
      dBonus := weapon.dBonus, critBuffs := weapon.critBuffs }
  else
    { weaponName := env.raceUnarmedName sourceChar.raceId
      weaponSubType := ItemSubtype.generic
      attacks := sourceChar.defAttacks, dCount := sourceChar.defDCount
      dSides := sourceChar.defDSides, dBonus := sourceChar.defDBonus
      critBuffs := sourceChar.defCritBuffs }

/-- Lines 263-270: the per-attack to-hit modifier when more than one weapon is
active this round: 35 when the dual-wield tier is below 4, else 25.  The code
comments call it a penalty; Hits adds it to the hit chance. -/
def dualWieldPenalty (numWeapons dualWieldLevel : Nat) : Int :=
  if 1 < numWeapons then (if dualWieldLevel < 4 then 35 else 25) else 0

/-- The mutable round state: the result being accumulated, the random stream,
the audit log, the attacker's live aggro record (shared by pointer with the
caller, spec sections 5 and 9), and a count of SetAggro mutations. -/
structure CombatState where
  res : AttackResult
  rng : List Nat
  log : List RollLogEntry
  aggro : Aggro
  aggroSets : Nat
deriving Repr

/-- Lines 302-311: the hit check, damage dice and crit decision for one
discrete attack.  The short-circuiting `attackResult.Crit || Crits(...)` means
no crit roll is made (or logged) once the round-level crit flag is set.
Returns the updated flags/buffs, the attack damage before mitigation, and the
advanced stream and log. -/
def attackDamageRoll (sourceChar targetChar : Character) (penalty : Int)
    (dCount dSides dBonus : Nat) (critBuffs : List Nat) (res : AttackResult)
    (g : List Nat) (log : List RollLogEntry) :
    AttackResult × Int × List Nat × List RollLogEntry :=
  let h := Hits sourceChar.stats.speedAdj targetChar.stats.speedAdj penalty g log
  if h.1 then
    let res := { res with hit := true }
    let r := rollDice dCount dSides h.2.1
    let dmg : Int := (r.1 : Int) + (dBonus : Int)
    let c : Bool × List Nat × List RollLogEntry :=
      if res.crit then (true, r.2, h.2.2) else Crits sourceChar targetChar r.2 h.2.2
    if c.1 then
      ({ res with crit := true, buffTarget := critBuffs },
        dmg + ((dCount * dSides + dBonus : Nat) : Int), c.2.1, c.2.2)
    else (res, dmg, c.2.1, c.2.2)
  else (res, 0, h.2.1, h.2.2)

/-- Lines 313-317 (and, mirrored for the source side, 319-323): draw a uniform
amount below the defense rating and, when positive, reduce the damage by
round(amount/100 * damage).  Returns (reduction, reduced damage, stream). -/
def applyDefense (defense : Nat) (dmg : Int) (g : List Nat) :
    Int × Int × List Nat :=
  let d := rand defense g
  if 0 < d.1 then
    let r := mathRoundDiv ((d.1 : Int) * dmg) 100
    (r, dmg - r, d.2)
  else (0, dmg, d.2)

/-- Lines 326-458 (string work only): severity selection, template lookup,
token substitution, crit decoration, backstab prefix, blocked suffixes, and
the extra target-token substitution applied to the room messages at send time.
Returns the four strings handed to templates.AnsiParse; the fourth is none
when the defender-room message is empty (line 451).  For a zero theoretical
maximum (dCount*dSides+dBonus = 0) the Go float division is degenerate
(NaN); the severity is modelled as 0 there. -/
def buildAttackMessages (env : Env) (sourceChar targetChar : Character)
    (sourceType targetType : SourceTarget) (wi : WeaponInfo) (preMsg : String)
    (critFlag : Bool) (attackTargetDamage attackTargetReduction
      attackSourceDamage attackSourceReduction : Int) :
    String × String × String × Option String :=
  let denom : Int := ((wi.dCount * wi.dSides + wi.dBonus : Nat) : Int)
  let pctDamage : Int := if denom = 0 then 0 else ceilDiv (attackTargetDamage * 100) denom
  let msgs := env.getAttackMessage wi.weaponSubType pctDamage
  let together := sourceChar.roomId == targetChar.roomId
  let toAttackerMsg := if together then msgs.together.toAttacker else msgs.separate.toAttacker
  let toDefenderMsg := if together then msgs.together.toDefender else msgs.separate.toDefender
  let toAttackerRoomMsg := if together then msgs.together.toRoom else msgs.separate.toAttackerRoom
  let toDefenderRoomMsg := if together then "" else msgs.separate.toDefenderRoom
  let tokens := tokenTable env sourceChar targetChar sourceType targetType
    wi.weaponName (toString attackTargetDamage)
  let q := tokens.foldl (attackTokenStep env)
    (toAttackerMsg, toDefenderMsg, toAttackerRoomMsg, toDefenderRoomMsg)
  let star := fun (s : String) =>
    "<ansi fg=\"yellow-bold\">***</ansi> " ++ s ++ " <ansi fg=\"yellow-bold\">***</ansi>"
  let q := if critFlag then
      (star q.1, star q.2.1, star q.2.2.1,
        if 0 < q.2.2.2.length then star q.2.2.2 else q.2.2.2)
    else q
  let q := if 0 < preMsg.length then
      (preMsg ++ q.1, preMsg ++ q.2.1, preMsg ++ q.2.2.1,
        if 0 < q.2.2.2.length then preMsg ++ q.2.2.2 else q.2.2.2)
    else q
  let attackerMsg := q.1 ++
    (if attackSourceDamage > 0 ∧ attackSourceReduction > 0 then
      " <ansi fg=\"white\">[" ++ toString attackSourceReduction ++ " was blocked]</ansi>"
    else "")
  let defenderMsg := q.2.1 ++
    (if attackTargetDamage > 0 ∧ attackTargetReduction > 0 then
      " <ansi fg=\"red\">[you blocked " ++ toString attackTargetReduction ++ "]</ansi>"
    else "")
  let roomMsg := env.setTokenValue
    (env.setTokenValue q.2.2.1 TokenName.target targetChar.name)
    TokenName.targetType (sourceTargetStr targetType)
  let defenderRoomMsg := if 0 < q.2.2.2.length then
      some (env.setTokenValue
        (env.setTokenValue q.2.2.2 TokenName.target targetChar.name)
        TokenName.targetType (sourceTargetStr targetType))
    else none
  (attackerMsg, defenderMsg, roomMsg, defenderRoomMsg)

/-- One discrete attack, combat.go lines 296-465: hit/crit/damage resolution,
both defense mitigations, narrative assembly, the four channel sends (the
target-room send only when the defender-room message is non-empty), and the
accumulation into the round-level result. -/
def resolveAttack (env : Env) (sourceChar targetChar : Character)
    (sourceType targetType : SourceTarget) (penalty : Int) (wi : WeaponInfo)
    (preMsg : String) (st : CombatState) : CombatState :=
  let a := attackDamageRoll sourceChar targetChar penalty wi.dCount wi.dSides
    wi.dBonus wi.critBuffs st.res st.rng st.log
  let res := a.1
  let tDef := applyDefense targetChar.defense a.2.1 a.2.2.1
  let attackTargetReduction := tDef.1
  let attackTargetDamage := tDef.2.1
  let sDef := applyDefense sourceChar.defense 0 tDef.2.2
  let attackSourceReduction := sDef.1
  let attackSourceDamage := sDef.2.1
  let m := buildAttackMessages env sourceChar targetChar sourceType targetType
    wi preMsg res.crit attackTargetDamage attackTargetReduction
    attackSourceDamage attackSourceReduction
  let res := res.sendToSource (env.ansiParse m.1)
  let res := res.sendToTarget (env.ansiParse m.2.1)
  let res := res.sendToSourceRoom (env.ansiParse m.2.2.1)
  let res := match m.2.2.2 with
    | none => res
    | some s => res.sendToTargetRoom (env.ansiParse s)
  let res := { res with
    damageToTarget := res.damageToTarget + attackTargetDamage
    damageToTargetReduction := res.damageToTargetReduction + attackTargetReduction
    damageToSource := res.damageToSource + attackSourceDamage
    damageToSourceReduction := res.damageToSourceReduction + attackSourceReduction }
  { st with res := res, rng := sDef.2.2, log := a.2.2.2 }

/-- The per-weapon multi-attack loop of combat.go line 294 (j = 0..attacks). -/
def attackLoop (env : Env) (sourceChar targetChar : Character)
    (sourceType targetType : SourceTarget) (penalty : Int) (wi : WeaponInfo)
    (preMsg : String) : Nat → CombatState → CombatState
  | 0, st => st
  | n + 1, st => attackLoop env sourceChar targetChar sourceType targetType
      penalty wi preMsg n
      (resolveAttack env sourceChar targetChar sourceType targetType penalty wi preMsg st)

/-- The weapon loop of combat.go line 261: each surviving weapon computes its
penalty (from the number of active weapons and the dual-wield tier), its
weapon info, and runs its attack loop. -/
def weaponLoop (env : Env) (sourceChar targetChar : Character)
    (sourceType targetType : SourceTarget) (numWeapons : Nat) (preMsg : String) :
    List Item → CombatState → CombatState
  | [], st => st
  | w :: ws, st =>
    let wi := weaponParams env sourceChar w
    let st := attackLoop env sourceChar targetChar sourceType targetType
      (dualWieldPenalty numWeapons sourceChar.dualWieldLevel) wi preMsg wi.attacks st
    weaponLoop env sourceChar targetChar sourceType targetType numWeapons preMsg ws st

/-- Lines 198-215: the candidate weapon list: main hand if present, offhand if
present and classified as a weapon; a synthetic empty-hands entry when
neither. -/
def buildWeapons (sourceChar : Character) : List Item :=
  let ws : List Item := []
  let ws := if sourceChar.weapon.itemId > 0 then ws ++ [sourceChar.weapon] else ws
  let ws := if sourceChar.offhand.itemId > 0 ∧ sourceChar.offhand.itemType = ItemType.weapon
    then ws ++ [sourceChar.offhand] else ws
  if ws.length = 0 then [emptyHands] else ws

/-- The culling loop of lines 244-248, with explicit fuel.  Each Go iteration
removes exactly one element (the drawn index is always in range), so the
list length is enough fuel; the wrapper removeRandom supplies it. -/
def removeRandomFuel : Nat → List Item → Nat → List Nat → List Item × List Nat
  | 0, ws, _, g => (ws, g)
  | fuel + 1, ws, maxWeapons, g =>
    if maxWeapons < ws.length then
      let r := rand ws.length g
      removeRandomFuel fuel (ws.eraseIdx r.1) maxWeapons r.2
    else (ws, g)

/-- Lines 244-248: remove uniformly-random candidates until at most maxWeapons
remain. -/
def removeRandom (ws : List Item) (maxWeapons : Nat) (g : List Nat) :
    List Item × List Nat :=
  removeRandomFuel ws.length ws maxWeapons g

/-- Lines 217-250: when more than one candidate is present, determine
maxWeapons from the dual-wield tier (tier 2 rolls a logged 50/50; tier 3+
always allows both), apply the claws override, and cull the candidate list. -/
def selectWeapons (sourceChar : Character) (ws : List Item) (g : List Nat)
    (log : List RollLogEntry) : List Item × List Nat × List RollLogEntry :=
  if 1 < ws.length then
    let maxWeapons := 1
    let maxWeapons := if sourceChar.dualWieldLevel = 1 then 1 else maxWeapons
    let roll2 : Nat × List Nat × List RollLogEntry :=
      if sourceChar.dualWieldLevel = 2 then
        let r := rand 100 g
        ((if r.1 < 50 then 2 else maxWeapons), r.2,
          log ++ [⟨RollLabel.bothWeapons, r.1, 50⟩])
      else (maxWeapons, g, log)
    let maxWeapons := roll2.1
    let g := roll2.2.1
    let log := roll2.2.2
    let maxWeapons := if 3 ≤ sourceChar.dualWieldLevel then 2 else maxWeapons
    let maxWeapons := if sourceChar.weapon.subtype = ItemSubtype.claws ∧
        sourceChar.offhand.subtype = ItemSubtype.claws then 2 else maxWeapons
    let rr := removeRandom ws maxWeapons g
    (rr.1, rr.2, log)
  else (ws, g, log)

/-- One attack cycle (one iteration of the loop at combat.go line 194):
candidate build, weapon selection, the backstab branch (lines 252-259: flag
the round crit and consume the one-shot mode via SetAggro), then the weapon
loop. -/
def combatCycle (env : Env) (sourceChar targetChar : Character)
    (sourceType targetType : SourceTarget) (st : CombatState) : CombatState :=
  let sel := selectWeapons sourceChar (buildWeapons sourceChar) st.rng st.log
  let ws := sel.1
  let st := { st with rng := sel.2.1, log := sel.2.2 }
  let bs :=
    if st.aggro.type = AggroType.backStab then
      ({ st with
          res := { st.res with crit := true }
          aggro := { st.aggro with type := AggroType.defaultAttack }
          aggroSets := st.aggroSets + 1 },
        "<ansi fg=\"magenta-bold\">*[BACKSTAB]*</ansi> ")
    else (st, "")
  weaponLoop env sourceChar targetChar sourceType targetType ws.length bs.2 ws bs.1

/-- The attack-cycle loop of combat.go line 194 (i = 0..attackCount). -/
def roundLoop (env : Env) (sourceChar targetChar : Character)
    (sourceType targetType : SourceTarget) : Nat → CombatState → CombatState
  | 0, st => st
  | n + 1, st => roundLoop env sourceChar targetChar sourceType targetType n
      (combatCycle env sourceChar targetChar sourceType targetType st)

/-- calculateCombat, combat.go lines 186-471.  The Character arguments are
value copies, but the attacker's aggro record is shared by pointer with the
caller's live record (spec sections 5 and 9); it is threaded through the
round state and returned so callers observe the one-shot backstab reset.
aggroSets counts the SetAggro mutations performed. -/
def calculateCombat (env : Env) (sourceChar targetChar : Character)
    (sourceType targetType : SourceTarget) (g : List Nat) : CombatState :=
  let st : CombatState :=
    { res := {}, rng := g, log := [], aggro := sourceChar.aggro, aggroSets := 0 }
  roundLoop env sourceChar targetChar sourceType targetType
    (attackCount sourceChar.stats.speedAdj targetChar.stats.speedAdj).toNat st

/-- A player record: combat.go reads UserId and Character. -/
structure UserRecord where
  userId : Nat
  character : Character
deriving Repr

/-- A mob record: combat.go reads Character and the DamageTaken ledger. -/
structure MobRecord where
  character : Character
  damageTaken : List (Nat × Int)
deriving Repr

/-- Modelled from the spec: Character.ApplyHealthChange(delta) mutates health
by the given delta (spec section 6). -/
def applyHealthChange (c : Character) (delta : Int) : Character :=
  { c with health := c.health + delta }

/-- Lines 36-40: credit damage to the attacking player in the mob's
damage-attribution ledger. -/
def recordDamageTaken (ledger : List (Nat × Int)) (userId : Nat) (dmg : Int) :
    List (Nat × Int) :=
  match ledger.find? (fun e => e.1 == userId) with
  | none => ledger ++ [(userId, dmg)]
  | some _ => ledger.map (fun e => if e.1 == userId then (e.1, e.2 + dmg) else e)

/-- AttackPlayerVsMob, combat.go lines 29-43.  The Character is passed to
calculateCombat by value, but its aggro record is a pointer shared with the
live user record, so the aggro coming back from the round is written into the
returned user record. -/
def AttackPlayerVsMob (env : Env) (user : UserRecord) (mob : MobRecord)
    (g : List Nat) : CombatState × UserRecord × MobRecord :=
  let out := calculateCombat env user.character mob.character
    SourceTarget.user SourceTarget.mob g
  let uc := applyHealthChange { user.character with aggro := out.aggro }
    (out.res.damageToSource * -1)
  let mc := applyHealthChange mob.character (out.res.damageToTarget * -1)
  let dt := recordDamageTaken mob.damageTaken user.userId out.res.damageToTarget
  (out, { user with character := uc }, { mob with character := mc, damageTaken := dt })

/-- Number of crit-roll entries in the audit log. -/
def critsCount (log : List RollLogEntry) : Nat :=
  log.countP (fun e => e.label == RollLabel.crits)

/-! ### Concrete fixtures used by witnesses and counterexamples -/

/-- A concrete message bundle with non-empty template strings (game message
templates are non-empty text). -/
def msgsT : ItemMessages :=
  { together := { toAttacker := "a", toDefender := "d", toRoom := "r" }
    separate := { toAttacker := "sa", toDefender := "sd"
                  toAttackerRoom := "sar", toDefenderRoom := "sdr" } }

/-- A concrete environment: every template lookup yields msgsT, the renderer
and token substitution leave strings unchanged, and no rooms are loaded. -/
def envT : Env :=
  { getAttackMessage := fun _ _ => msgsT
    getPreAttackMessage := fun _ _ => msgsT
    ansiParse := fun s => s
    setTokenValue := fun s _ _ => s
    loadRoom := fun _ => none
    raceUnarmedName := fun _ => "fists" }

/-- A base character: unarmed, dual-wield tier 0, no buffs, default attack
mode, racial dice 1d4+0 with a single attack, defense rating 1. -/
def baseChar : Character :=
  { name := "n", mobName := "m", raceId := 0, level := 1
    stats := { speedAdj := 0, strengthAdj := 0 }
    health := 10, roomId := 1
    weapon := emptyHands, offhand := emptyHands
    dualWieldLevel := 0
    aggro := { userId := 0, mobInstanceId := 0, type := AggroType.defaultAttack }
    defense := 1
    defAttacks := 1, defDCount := 1, defDSides := 4, defDBonus := 0
    defCritBuffs := []
    hasHidden := false, hasAccuracy := false, hasBlink := false }

/-- Attacker with adjusted speed 1 (speed delta 1 gives one attack cycle). -/
def srcSpd1 : Character := { baseChar with stats := { speedAdj := 1, strengthAdj := 0 } }

/-- Target with an out-of-percentage-range defense rating of 1000. -/
def tgtBigDef : Character := { baseChar with defense := 1000 }

/-- Attacker under the hidden status effect. -/
def srcHid : Character := { srcSpd1 with hasHidden := true }

/-- Attacker entering the round in the one-shot backstab targeting mode. -/
def srcBS : Character :=
  { srcSpd1 with aggro := { userId := 3, mobInstanceId := 0, type := AggroType.backStab } }

/-- Claim C6's scenario attacker: level 10, strength 20, speed 30. -/
def srcC6 : Character :=
  { baseChar with level := 10, stats := { speedAdj := 30, strengthAdj := 20 } }

/-- Claim C6's scenario target: level 5. -/
def tgtC6 : Character := { baseChar with level := 5 }

/-- A concrete main-hand weapon. -/
def mainW : Item :=
  { itemId := 7, itemType := ItemType.weapon, subtype := ItemSubtype.bladed
    displayName := "sword", attacks := 1, dCount := 1, dSides := 6, dBonus := 1
    critBuffs := [4] }

/-- A concrete off-hand weapon. -/
def offW : Item :=
  { itemId := 8, itemType := ItemType.weapon, subtype := ItemSubtype.blunt
    displayName := "club", attacks := 1, dCount := 1, dSides := 4, dBonus := 0
    critBuffs := [] }

/-- A dual wielder at tier 0 with a sword and a club. -/
def charDW0 : Character := { baseChar with weapon := mainW, offhand := offW }

/-- A dual wielder at tier 3 with a sword and a club. -/
def charDW3 : Character := { charDW0 with dualWieldLevel := 3 }

/-- A claw item for each hand. -/
def clawW : Item :=
  { itemId := 9, itemType := ItemType.weapon, subtype := ItemSubtype.claws
    displayName := "claws", attacks := 1, dCount := 1, dSides := 4, dBonus := 0
    critBuffs := [] }

/-- A tier-0 dual wielder with claws in both hands. -/
def charClaws : Character := { baseChar with weapon := clawW, offhand := clawW }

/-- Zero-defense attacker used by the C10 witness. -/
def srcDef0 : Character := { srcSpd1 with defense := 0 }

/-- Zero-defense target used by the C10 witness. -/
def tgtDef0 : Character := { baseChar with defense := 0 }

/-- Weapon info used by the C9 and C10 witnesses: 1 attack of 1d6+2. -/
def wiC10 : WeaponInfo :=
  { weaponName := "w", weaponSubType := ItemSubtype.bladed, attacks := 1
    dCount := 1, dSides := 6, dBonus := 2, critBuffs := [9] }

/-- A round state whose crit flag is already set, used by the C10 witness. -/
def stC10 : CombatState :=
  { res := { crit := true }, rng := [0, 1], log := []
    aggro := { userId := 0, mobInstanceId := 0, type := AggroType.defaultAttack }
    aggroSets := 0 }

/-- A round state with one guaranteed-miss roll, used by the C9 witness. -/
def stC9 : CombatState :=
  { res := {}, rng := [96], log := []
    aggro := { userId := 0, mobInstanceId := 0, type := AggroType.defaultAttack }
    aggroSets := 0 }

/-- Claim C6's crit-chance formula, written from the specification's words:
5 + round((sourceStrength + sourceSpeed) / max(1, sourceLevel − targetLevel)),
doubled if the source has the accuracy buff, then halved if the target has the
blink buff, then re-floored at 5. -/
def critChanceSpec (sourceChar targetChar : Character) : Int :=
  let base := 5 + mathRoundDiv
    (sourceChar.stats.strengthAdj + sourceChar.stats.speedAdj)
    (max 1 (sourceChar.level - targetChar.level))
  let base := if sourceChar.hasAccuracy then 2 * base else base
  let base := if targetChar.hasBlink then truncDiv base 2 else base
  max 5 base

/-! ### Claim theorems -/

/-- Claim C1 (code bug): combat.go supplies the dual-wield "penalty" as a
positive modifier (35 at tier < 4, lines 263-270) and Hits adds it
(toHit += hitModifier, line 487), so with two active weapons the final
to-hit percentage rises: at speeds 100 vs 50 it climbs from 76 to the 95 cap
instead of dropping to 41 as subtraction would give, and a hit roll of 80
(a miss single-handed) hits.  This computes the code at the failing input. -/
theorem c1_penalty_added_not_subtracted :
    dualWieldPenalty 2 0 = 35
    ∧ effectiveToHit 100 50 (dualWieldPenalty 2 0) = 95
    ∧ effectiveToHit 100 50 0 = 76
    ∧ effectiveToHit 100 50 (-35) = 41
    ∧ (Hits 100 50 (dualWieldPenalty 2 0) [80] []).1 = true
    ∧ (Hits 100 50 0 [80] []).1 = false
    ∧ effectiveToHit 100 50 0 < effectiveToHit 100 50 (dualWieldPenalty 2 0) := by
  decide

/-- Claim C4: the attack-cycle count of a resolver call (the loop bound of
combat.go lines 190-194) equals max(1, ceil((sourceSpeed − targetSpeed)/25)):
a delta of 0 or less gives exactly 1 cycle, 26-50 gives exactly 2, and 51-75
gives exactly 3. -/
theorem c4_attack_count (s t : Int) :
    attackCount s t = max 1 (ceilDiv (s - t) 25)
    ∧ (s - t ≤ 0 → attackCount s t = 1)
    ∧ (26 ≤ s - t → s - t ≤ 50 → attackCount s t = 2)
    ∧ (51 ≤ s - t → s - t ≤ 75 → attackCount s t = 3) := by
  simp only [attackCount, ceilDiv, max_def]
  refine ⟨?_, fun h => ?_, fun h1 h2 => ?_, fun h1 h2 => ?_⟩ <;>
    (repeat' split) <;> omega

/-- Witness for claim C4 at concrete speeds. -/
theorem c4_attack_count_witness :
    attackCount 50 70 = 1 ∧ attackCount 100 60 = 2 ∧ attackCount 110 50 = 3 :=
  ⟨(c4_attack_count 50 70).2.1 (by decide),
    (c4_attack_count 100 60).2.2.1 (by decide) (by decide),
    (c4_attack_count 110 50).2.2.2 (by decide) (by decide)⟩

/-- Counterexample for claim C5: at adjusted speeds 100 vs 50 the speed delta
is 50, so combat.go lines 190-193 give ceil(50/25) = 2 attack cycles, not the
single cycle the claim states. -/
theorem c5_counterexample : attackCount 100 50 = 2 ∧ ¬attackCount 100 50 = 1 := by
  decide

/-- Claim C5 as amended: attacker speed 100 vs defender speed 50, unarmed,
dual-wield tier 0, no status effects, equal levels: the round contains exactly
2 attack cycles (not 1); the hit chance is 30 + floor(70*100/150) = 76,
unchanged by the [5,95] clamp (no dual-wield modifier applies to a single
weapon); a hit roll of 50 hits and a hit roll of 80 misses. -/
theorem c5_amended_scenario :
    attackCount 100 50 = 2
    ∧ hitChance 100 50 = 76
    ∧ dualWieldPenalty 1 0 = 0
    ∧ effectiveToHit 100 50 0 = 76
    ∧ (Hits 100 50 0 [50] []).1 = true
    ∧ (Hits 100 50 0 [80] []).1 = false := by
  decide

/-- Re-flooring at 5 via the if of combat.go lines 523-526 equals max 5. -/
theorem ite5_max (x : Int) : (if x < 5 then 5 else x) = max 5 x := by
  rw [max_def]; split <;> split <;> omega

/-- Claim C6: the crit chance equals
5 + round((sourceStrength + sourceSpeed) / max(1, sourceLevel − targetLevel)),
doubled by the accuracy buff, then halved by the target's blink buff, then
re-floored at 5 (critChanceSpec is that formula written from the spec); a crit
occurs iff the uniform draw in [0,100) is strictly below the chance, and the
draw is always logged with that chance as its threshold.  In the scenario
(level 10 vs 5, strength 20, speed 30, no buffs) the chance is 15, a roll of
10 crits and a roll of 20 does not. -/
theorem c6_crit_chance :
    (∀ sourceChar targetChar : Character,
      critChanceOf sourceChar targetChar = critChanceSpec sourceChar targetChar)
    ∧ (∀ (sourceChar targetChar : Character) (h : Nat) (rest g2 : List Nat)
        (log log2 : List RollLogEntry),
      ((Crits sourceChar targetChar (h :: rest) log).1 = true
        ↔ ((h % 100 : Nat) : Int) < critChanceOf sourceChar targetChar)
      ∧ (Crits sourceChar targetChar g2 log2).2.2 =
          log2 ++ [⟨RollLabel.crits, (rand 100 g2).1, critChanceOf sourceChar targetChar⟩])
    ∧ critChanceOf srcC6 tgtC6 = 15
    ∧ (Crits srcC6 tgtC6 [10] []).1 = true
    ∧ (Crits srcC6 tgtC6 [20] []).1 = false := by
  refine ⟨fun s t => ?_, fun s t h rest g2 log log2 => ⟨?_, ?_⟩,
    by decide, by decide, by decide⟩
  · dsimp only [critChanceOf, critChanceSpec]
    rw [show (1 : Int) ⊔ (s.level - t.level)
        = (if s.level - t.level < 1 then 1 else s.level - t.level) from by
      rw [max_def]; split <;> split <;> omega]
    rw [Int.mul_comm 2 (5 + mathRoundDiv (s.stats.strengthAdj + s.stats.speedAdj)
      (if s.level - t.level < 1 then 1 else s.level - t.level))]
    rw [ite5_max]
  · simp [Crits, rand, decide_eq_true_iff]
  · simp [Crits]

/-- util.Rand draws below its bound when the bound is positive. -/
theorem rand_lt (n : Nat) (g : List Nat) (hn : 0 < n) : (rand n g).1 < n := by
  cases g with
  | nil => simp [rand]; omega
  | cons h t =>
    simp only [rand]
    split
    · omega
    · exact Nat.mod_lt _ hn

/-- The culling loop removes exactly one candidate per iteration, so with fuel
at least the list length it stops at min(length, maxWeapons) survivors. -/
theorem removeRandomFuel_length (fuel : Nat) :
    ∀ (ws : List Item) (maxWeapons : Nat) (g : List Nat), ws.length ≤ fuel →
    (removeRandomFuel fuel ws maxWeapons g).1.length = min ws.length maxWeapons := by
  induction fuel with
  | zero =>
    intro ws maxW g hf
    have h0 : ws.length = 0 := Nat.le_zero.mp hf
    simp [removeRandomFuel, h0, Nat.min_def]
  | succ fuel ih =>
    intro ws maxW g hf
    simp only [removeRandomFuel]
    split
    · rename_i hlt
      have hr : (rand ws.length g).1 < ws.length := rand_lt _ _ (by omega)
      have hel : (ws.eraseIdx (rand ws.length g).1).length + 1 = ws.length :=
        List.length_eraseIdx_add_one hr
      rw [ih _ _ _ (by omega)]
      rw [Nat.min_def, Nat.min_def]
      split <;> split <;> omega
    · rename_i hge
      dsimp only
      rw [Nat.min_def]
      split <;> omega

/-- The weapon culling of combat.go lines 244-248 keeps exactly
min(candidates, maxWeapons) weapons. -/
theorem removeRandom_length (ws : List Item) (maxWeapons : Nat) (g : List Nat) :
    (removeRandom ws maxWeapons g).1.length = min ws.length maxWeapons :=
  removeRandomFuel_length ws.length ws maxWeapons g (Nat.le_refl _)

/-- With both hands holding positive-id items and the offhand classified as a
weapon, the candidate list of lines 198-215 is exactly both weapons. -/
theorem buildWeapons_two (c : Character) (hw : c.weapon.itemId > 0)
    (ho : c.offhand.itemId > 0) (hot : c.offhand.itemType = ItemType.weapon) :
    buildWeapons c = [c.weapon, c.offhand] := by
  simp [buildWeapons, hw, ho, hot]

/-- Claim C7: with a main-hand weapon and a weapon-classified off-hand both
equipped (two candidates), dual-wield tier 0 or 1 leaves at most 1 weapon for
the round (absent the claws override, which the claim itself carves out),
tier 3 or higher leaves exactly 2, and claws in both hands leave exactly 2
regardless of tier, including tier 0. -/
theorem c7_weapon_selection (sourceChar : Character) (g : List Nat)
    (log : List RollLogEntry) (hw : sourceChar.weapon.itemId > 0)
    (ho : sourceChar.offhand.itemId > 0)
    (hot : sourceChar.offhand.itemType = ItemType.weapon) :
    (sourceChar.dualWieldLevel ≤ 1 →
      ¬(sourceChar.weapon.subtype = ItemSubtype.claws ∧
        sourceChar.offhand.subtype = ItemSubtype.claws) →
      (selectWeapons sourceChar (buildWeapons sourceChar) g log).1.length ≤ 1)
    ∧ (3 ≤ sourceChar.dualWieldLevel →
      (selectWeapons sourceChar (buildWeapons sourceChar) g log).1.length = 2)
    ∧ (sourceChar.weapon.subtype = ItemSubtype.claws →
      sourceChar.offhand.subtype = ItemSubtype.claws →
      (selectWeapons sourceChar (buildWeapons sourceChar) g log).1.length = 2) := by
  rw [buildWeapons_two sourceChar hw ho hot]
  refine ⟨fun hdw hnc => ?_, fun h3 => ?_, fun hc1 hc2 => ?_⟩
  · have h1 : ¬(sourceChar.dualWieldLevel = 2) := by omega
    have h3 : ¬(3 ≤ sourceChar.dualWieldLevel) := by omega
    simp only [selectWeapons, List.length_cons, List.length_nil]
    norm_num
    simp [h1, h3, hnc, removeRandom_length]
  · simp only [selectWeapons, List.length_cons, List.length_nil]
    norm_num
    simp [h3, removeRandom_length]
  · simp only [selectWeapons, List.length_cons, List.length_nil]
    norm_num
    simp [hc1, hc2, removeRandom_length]

/-- Witness for claim C7 at concrete tier-0, tier-3 and claw dual wielders. -/
theorem c7_weapon_selection_witness :
    (selectWeapons charDW0 (buildWeapons charDW0) [5] []).1.length ≤ 1
    ∧ (selectWeapons charDW3 (buildWeapons charDW3) [5] []).1.length = 2
    ∧ (selectWeapons charClaws (buildWeapons charClaws) [5] []).1.length = 2 :=
  ⟨(c7_weapon_selection charDW0 [5] [] (by decide) (by decide) (by decide)).1
      (by decide) (by decide),
    (c7_weapon_selection charDW3 [5] [] (by decide) (by decide) (by decide)).2.1
      (by decide),
    (c7_weapon_selection charClaws [5] [] (by decide) (by decide) (by decide)).2.2
      (by decide) (by decide)⟩

/-- All four cumulative damage/reduction fields of a result are
non-negative. -/
def NonNegFields (r : AttackResult) : Prop :=
  0 ≤ r.damageToTarget ∧ 0 ≤ r.damageToTargetReduction
    ∧ 0 ≤ r.damageToSource ∧ 0 ≤ r.damageToSourceReduction

/-- Round-half-away-from-zero of a*dmg/100 stays within [0, dmg] when the
percentage a is between 0 and 100 and dmg is non-negative. -/
theorem mathRoundDiv_pct_bounds (a dmg : Int) (ha0 : 0 ≤ a) (ha : a ≤ 100)
    (hd : 0 ≤ dmg) :
    0 ≤ mathRoundDiv (a * dmg) 100 ∧ mathRoundDiv (a * dmg) 100 ≤ dmg := by
  have hp0 : 0 ≤ a * dmg := mul_nonneg ha0 hd
  have hp : a * dmg ≤ 100 * dmg := mul_le_mul_of_nonneg_right ha hd
  unfold mathRoundDiv
  rw [if_neg (by omega)]
  omega

/-- When the defense rating is at most 100 every drawn percentage is below
100, so the mitigation of combat.go lines 313-317 yields a non-negative
reduction bounded by the pre-reduction damage, and the final damage is their
non-negative difference. -/
theorem applyDefense_bounds (defense : Nat) (dmg : Int) (g : List Nat)
    (hdef : defense ≤ 100) (hd : 0 ≤ dmg) :
    0 ≤ (applyDefense defense dmg g).1
    ∧ (applyDefense defense dmg g).1 ≤ dmg
    ∧ (applyDefense defense dmg g).2.1 = dmg - (applyDefense defense dmg g).1
    ∧ 0 ≤ (applyDefense defense dmg g).2.1 := by
  unfold applyDefense
  dsimp only
  split
  · rename_i hpos
    have hle : (rand defense g).1 ≤ 100 := by
      rcases Nat.eq_zero_or_pos defense with h0 | hp
      · subst h0; cases g <;> simp [rand] at hpos
      · have := rand_lt defense g hp; omega
    have hb := mathRoundDiv_pct_bounds ((rand defense g).1 : Int) dmg
      (Int.natCast_nonneg _) (by exact_mod_cast hle) hd
    dsimp only
    exact ⟨hb.1, hb.2, rfl, by omega⟩
  · dsimp only
    exact ⟨le_refl 0, hd, by omega, hd⟩

/-- attackDamageRoll returns a non-negative pre-mitigation damage and does not
touch the cumulative damage fields or the to-target channel of the result. -/
theorem attackDamageRoll_basic (s t : Character) (p : Int) (dC dS dB : Nat)
    (cb : List Nat) (res : AttackResult) (g : List Nat) (log : List RollLogEntry) :
    0 ≤ (attackDamageRoll s t p dC dS dB cb res g log).2.1
    ∧ (attackDamageRoll s t p dC dS dB cb res g log).1.damageToTarget = res.damageToTarget
    ∧ (attackDamageRoll s t p dC dS dB cb res g log).1.damageToTargetReduction = res.damageToTargetReduction
    ∧ (attackDamageRoll s t p dC dS dB cb res g log).1.damageToSource = res.damageToSource
    ∧ (attackDamageRoll s t p dC dS dB cb res g log).1.damageToSourceReduction = res.damageToSourceReduction
    ∧ (attackDamageRoll s t p dC dS dB cb res g log).1.toTarget = res.toTarget := by
  unfold attackDamageRoll
  dsimp only
  split
  · cases hrc : res.crit
    · simp only [hrc, Bool.false_eq_true, if_false]
      split
      · exact ⟨by positivity, by trivial, by trivial, by trivial, by trivial, by trivial⟩
      · exact ⟨by positivity, by trivial, by trivial, by trivial, by trivial, by trivial⟩
    · simp only [hrc, if_true]
      exact ⟨by positivity, by trivial, by trivial, by trivial, by trivial, by trivial⟩
  · exact ⟨le_refl 0, by trivial, by trivial, by trivial, by trivial, by trivial⟩

/-- One discrete attack preserves non-negativity of all cumulative fields when
both defense ratings are percentages (at most 100). -/
theorem resolveAttack_nonneg (env : Env) (s t : Character)
    (sT tT : SourceTarget) (p : Int) (wi : WeaponInfo) (pm : String)
    (st : CombatState) (hs : s.defense ≤ 100) (ht : t.defense ≤ 100)
    (hnn : NonNegFields st.res) :
    NonNegFields (resolveAttack env s t sT tT p wi pm st).res := by
  obtain ⟨n1, n2, n3, n4⟩ := hnn
  obtain ⟨ha0, he1, he2, he3, he4, he5⟩ := attackDamageRoll_basic s t p wi.dCount
    wi.dSides wi.dBonus wi.critBuffs st.res st.rng st.log
  have htd := applyDefense_bounds t.defense
    ((attackDamageRoll s t p wi.dCount wi.dSides wi.dBonus wi.critBuffs st.res st.rng st.log).2.1)
    ((attackDamageRoll s t p wi.dCount wi.dSides wi.dBonus wi.critBuffs st.res st.rng st.log).2.2.1)
    ht ha0
  have hsd := applyDefense_bounds s.defense 0
    ((applyDefense t.defense
      (attackDamageRoll s t p wi.dCount wi.dSides wi.dBonus wi.critBuffs st.res st.rng st.log).2.1
      (attackDamageRoll s t p wi.dCount wi.dSides wi.dBonus wi.critBuffs st.res st.rng st.log).2.2.1).2.2)
    hs (le_refl 0)
  obtain ⟨t1, t2, t3, t4⟩ := htd
  obtain ⟨s1, s2, s3, s4⟩ := hsd
  unfold resolveAttack NonNegFields AttackResult.sendToSource
    AttackResult.sendToTarget AttackResult.sendToSourceRoom AttackResult.sendToTargetRoom
  dsimp only
  split <;> (dsimp only; exact ⟨by omega, by omega, by omega, by omega⟩)

/-- The per-weapon attack loop preserves non-negativity of the cumulative
fields. -/
theorem attackLoop_nonneg (env : Env) (s t : Character) (sT tT : SourceTarget)
    (p : Int) (wi : WeaponInfo) (pm : String) :
    ∀ (n : Nat) (st : CombatState), s.defense ≤ 100 → t.defense ≤ 100 →
    NonNegFields st.res → NonNegFields (attackLoop env s t sT tT p wi pm n st).res := by
  intro n
  induction n with
  | zero => intro st _ _ h; exact h
  | succ n ih =>
    intro st hs ht h
    exact ih _ hs ht (resolveAttack_nonneg env s t sT tT p wi pm st hs ht h)

/-- The weapon loop preserves non-negativity of the cumulative fields. -/
theorem weaponLoop_nonneg (env : Env) (s t : Character) (sT tT : SourceTarget)
    (nw : Nat) (pm : String) :
    ∀ (ws : List Item) (st : CombatState), s.defense ≤ 100 → t.defense ≤ 100 →
    NonNegFields st.res → NonNegFields (weaponLoop env s t sT tT nw pm ws st).res := by
  intro ws
  induction ws with
  | nil => intro st _ _ h; exact h
  | cons w ws ih =>
    intro st hs ht h
    exact ih _ hs ht (attackLoop_nonneg env s t sT tT _ _ pm _ st hs ht h)

/-- One attack cycle preserves non-negativity of the cumulative fields. -/
theorem combatCycle_nonneg (env : Env) (s t : Character) (sT tT : SourceTarget)
    (st : CombatState) (hs : s.defense ≤ 100) (ht : t.defense ≤ 100)
    (h : NonNegFields st.res) :
    NonNegFields (combatCycle env s t sT tT st).res := by
  unfold combatCycle
  dsimp only
  split
  · exact weaponLoop_nonneg env s t sT tT _ _ _ _ hs ht h
  · exact weaponLoop_nonneg env s t sT tT _ _ _ _ hs ht h

/-- The attack-cycle loop preserves non-negativity of the cumulative
fields. -/
theorem roundLoop_nonneg (env : Env) (s t : Character) (sT tT : SourceTarget) :
    ∀ (n : Nat) (st : CombatState), s.defense ≤ 100 → t.defense ≤ 100 →
    NonNegFields st.res → NonNegFields (roundLoop env s t sT tT n st).res := by
  intro n
  induction n with
  | zero => intro st _ _ h; exact h
  | succ n ih =>
    intro st hs ht h
    exact ih _ hs ht (combatCycle_nonneg env s t sT tT st hs ht h)

/-- Counterexample for claim C8: the external defense rating is not bounded by
the code; with a target defense rating of 1000, a drawn reduction percentage
of 150 applied to a 2-point hit yields reduction 3 exceeding the pre-reduction
damage, a per-attack final damage of −1, and a negative cumulative
DamageToTarget on the returned result. -/
theorem c8_counterexample :
    (calculateCombat envT srcSpd1 tgtBigDef SourceTarget.user SourceTarget.mob
      [0, 1, 99, 150, 7]).res.damageToTarget = -1
    ∧ (calculateCombat envT srcSpd1 tgtBigDef SourceTarget.user SourceTarget.mob
      [0, 1, 99, 150, 7]).res.damageToTargetReduction = 3
    ∧ ¬(0 ≤ (calculateCombat envT srcSpd1 tgtBigDef SourceTarget.user SourceTarget.mob
      [0, 1, 99, 150, 7]).res.damageToTarget) := by
  decide

/-- Claim C8 as amended: provided each combatant's defense rating is at most
100 (so every drawn reduction percentage stays below 100), the defense
reduction on each side never exceeds that side's pre-reduction damage, the
per-attack final damage is their non-negative difference, and every cumulative
damage and reduction field of the returned Attack Result is non-negative. -/
theorem c8_reduction_and_nonneg :
    (∀ (defense : Nat) (dmg : Int) (g : List Nat), defense ≤ 100 → 0 ≤ dmg →
      0 ≤ (applyDefense defense dmg g).1
      ∧ (applyDefense defense dmg g).1 ≤ dmg
      ∧ (applyDefense defense dmg g).2.1 = dmg - (applyDefense defense dmg g).1
      ∧ 0 ≤ (applyDefense defense dmg g).2.1)
    ∧ (∀ (env : Env) (s t : Character) (sT tT : SourceTarget) (g : List Nat),
      s.defense ≤ 100 → t.defense ≤ 100 →
      NonNegFields (calculateCombat env s t sT tT g).res) := by
  refine ⟨fun d dmg g hd h0 => applyDefense_bounds d dmg g hd h0,
    fun env s t sT tT g hs ht => ?_⟩
  unfold calculateCombat
  exact roundLoop_nonneg env s t sT tT _ _ hs ht
    ⟨le_refl 0, le_refl 0, le_refl 0, le_refl 0⟩

/-- Witness for claim C8 at a concrete round and a concrete mitigation. -/
theorem c8_reduction_and_nonneg_witness :
    NonNegFields (calculateCombat envT srcSpd1 baseChar SourceTarget.user
      SourceTarget.mob [0, 1, 99, 0, 0]).res
    ∧ 0 ≤ (applyDefense 50 10 [30]).1 ∧ (applyDefense 50 10 [30]).1 ≤ 10 :=
  ⟨c8_reduction_and_nonneg.2 envT srcSpd1 baseChar SourceTarget.user SourceTarget.mob
      [0, 1, 99, 0, 0] (by decide) (by decide),
    (c8_reduction_and_nonneg.1 50 10 [30] (by decide) (by decide)).1,
    (c8_reduction_and_nonneg.1 50 10 [30] (by decide) (by decide)).2.1⟩

/-- Projections of one discrete attack: the flags, buff set and log come from
attackDamageRoll, the aggro record and its mutation count are untouched, the
to-target channel grows by exactly one entry, and the cumulative target
damage/reduction grow by the mitigated damage and the reduction. -/
theorem resolveAttack_proj (env : Env) (s t : Character) (sT tT : SourceTarget)
    (p : Int) (wi : WeaponInfo) (pm : String) (st : CombatState) :
    (resolveAttack env s t sT tT p wi pm st).res.hit
      = (attackDamageRoll s t p wi.dCount wi.dSides wi.dBonus wi.critBuffs st.res st.rng st.log).1.hit
    ∧ (resolveAttack env s t sT tT p wi pm st).res.crit
      = (attackDamageRoll s t p wi.dCount wi.dSides wi.dBonus wi.critBuffs st.res st.rng st.log).1.crit
    ∧ (resolveAttack env s t sT tT p wi pm st).res.buffTarget
      = (attackDamageRoll s t p wi.dCount wi.dSides wi.dBonus wi.critBuffs st.res st.rng st.log).1.buffTarget
    ∧ (resolveAttack env s t sT tT p wi pm st).log
      = (attackDamageRoll s t p wi.dCount wi.dSides wi.dBonus wi.critBuffs st.res st.rng st.log).2.2.2
    ∧ (resolveAttack env s t sT tT p wi pm st).aggro = st.aggro
    ∧ (resolveAttack env s t sT tT p wi pm st).aggroSets = st.aggroSets
    ∧ (resolveAttack env s t sT tT p wi pm st).res.toTarget.length
      = (attackDamageRoll s t p wi.dCount wi.dSides wi.dBonus wi.critBuffs st.res st.rng st.log).1.toTarget.length + 1
    ∧ (resolveAttack env s t sT tT p wi pm st).res.damageToTarget
      = (attackDamageRoll s t p wi.dCount wi.dSides wi.dBonus wi.critBuffs st.res st.rng st.log).1.damageToTarget
        + (applyDefense t.defense
            (attackDamageRoll s t p wi.dCount wi.dSides wi.dBonus wi.critBuffs st.res st.rng st.log).2.1
            (attackDamageRoll s t p wi.dCount wi.dSides wi.dBonus wi.critBuffs st.res st.rng st.log).2.2.1).2.1
    ∧ (resolveAttack env s t sT tT p wi pm st).res.damageToTargetReduction
      = (attackDamageRoll s t p wi.dCount wi.dSides wi.dBonus wi.critBuffs st.res st.rng st.log).1.damageToTargetReduction
        + (applyDefense t.defense
            (attackDamageRoll s t p wi.dCount wi.dSides wi.dBonus wi.critBuffs st.res st.rng st.log).2.1
            (attackDamageRoll s t p wi.dCount wi.dSides wi.dBonus wi.critBuffs st.res st.rng st.log).2.2.1).1 := by
  unfold resolveAttack AttackResult.sendToSource AttackResult.sendToTarget
    AttackResult.sendToSourceRoom AttackResult.sendToTargetRoom
  dsimp only
  split <;>
    (dsimp only
     refine ⟨rfl, rfl, rfl, rfl, rfl, rfl, ?_, rfl, rfl⟩
     simp [List.length_append])

/-- critsCount distributes over log concatenation. -/
theorem critsCount_append (l1 l2 : List RollLogEntry) :
    critsCount (l1 ++ l2) = critsCount l1 + critsCount l2 := by
  simp [critsCount, List.countP_append]

/-- A hit-roll audit entry is not a crit roll. -/
theorem critsCount_hits_entry (r : Nat) (tgt : Int) :
    critsCount [⟨RollLabel.hits, r, tgt⟩] = 0 := rfl

/-- A crit-roll audit entry counts as one crit roll. -/
theorem critsCount_crits_entry (r : Nat) (tgt : Int) :
    critsCount [⟨RollLabel.crits, r, tgt⟩] = 1 := rfl

/-- Hits advances the stream by one draw and logs exactly one hits entry. -/
theorem Hits_parts (aSpd dSpd m : Int) (g : List Nat) (log : List RollLogEntry) :
    (Hits aSpd dSpd m g log).2.1 = (rand 100 g).2
    ∧ (Hits aSpd dSpd m g log).2.2
      = log ++ [⟨RollLabel.hits, (rand 100 g).1, effectiveToHit aSpd dSpd m⟩] := by
  exact ⟨rfl, rfl⟩

/-- Crits advances the stream by one draw and logs exactly one crits entry. -/
theorem Crits_parts (s t : Character) (g : List Nat) (log : List RollLogEntry) :
    (Crits s t g log).2.1 = (rand 100 g).2
    ∧ (Crits s t g log).2.2
      = log ++ [⟨RollLabel.crits, (rand 100 g).1, critChanceOf s t⟩] := by
  exact ⟨rfl, rfl⟩

/-- Mitigating zero damage yields zero reduction and zero damage (the
round of a zero product is zero). -/
theorem applyDefense_zero_dmg (d : Nat) (g : List Nat) :
    (applyDefense d 0 g).1 = 0 ∧ (applyDefense d 0 g).2.1 = 0 := by
  have hz : mathRoundDiv 0 100 = 0 := by decide
  unfold applyDefense
  dsimp only
  split
  · constructor <;> simp [mul_zero, hz]
  · exact ⟨rfl, rfl⟩

/-- A zero defense rating draws 0, so mitigation is skipped entirely. -/
theorem applyDefense_zero_rating (dmg : Int) (g : List Nat) :
    applyDefense 0 dmg g = (0, dmg, g.tail) := by
  cases g <;> simp [applyDefense, rand]

/-- When the hit check fails, lines 302-311 leave the result untouched and
contribute zero damage; only the hit roll was drawn and logged. -/
theorem attackDamageRoll_false_eq (s t : Character) (p : Int) (dC dS dB : Nat)
    (cb : List Nat) (res : AttackResult) (g : List Nat) (log : List RollLogEntry)
    (hf : (Hits s.stats.speedAdj t.stats.speedAdj p g log).1 = false) :
    attackDamageRoll s t p dC dS dB cb res g log
      = (res, 0, (Hits s.stats.speedAdj t.stats.speedAdj p g log).2.1,
          (Hits s.stats.speedAdj t.stats.speedAdj p g log).2.2) := by
  unfold attackDamageRoll
  simp [hf]

/-- When the hit check passes and the round-level crit flag is already set,
the || short-circuits: no crit roll is drawn or logged, the buff set is
overwritten and the full dieCount*dieSides + flatBonus crit bonus is added on
top of the dice roll. -/
theorem attackDamageRoll_crit_true_eq (s t : Character) (p : Int) (dC dS dB : Nat)
    (cb : List Nat) (res : AttackResult) (g : List Nat) (log : List RollLogEntry)
    (hT : (Hits s.stats.speedAdj t.stats.speedAdj p g log).1 = true)
    (hc : res.crit = true) :
    attackDamageRoll s t p dC dS dB cb res g log
      = ({res with hit := true, crit := true, buffTarget := cb},
          ((rollDice dC dS (Hits s.stats.speedAdj t.stats.speedAdj p g log).2.1).1 : Int)
            + (dB : Int) + ((dC * dS + dB : Nat) : Int),
          (rollDice dC dS (Hits s.stats.speedAdj t.stats.speedAdj p g log).2.1).2,
          (Hits s.stats.speedAdj t.stats.speedAdj p g log).2.2) := by
  unfold attackDamageRoll
  simp [hT, hc]

/-- Flag/log bookkeeping of lines 302-311: the hit flag is the disjunction of
the hit check and the previous flag; a set crit flag is preserved with no new
crit roll; the crit-roll count never decreases; and a newly set crit flag
implies a crit roll was logged. -/
theorem attackDamageRoll_crit_log (s t : Character) (p : Int) (dC dS dB : Nat)
    (cb : List Nat) (res : AttackResult) (g : List Nat) (log : List RollLogEntry) :
    (attackDamageRoll s t p dC dS dB cb res g log).1.hit
      = ((Hits s.stats.speedAdj t.stats.speedAdj p g log).1 || res.hit)
    ∧ (res.crit = true →
        (attackDamageRoll s t p dC dS dB cb res g log).1.crit = true
        ∧ critsCount (attackDamageRoll s t p dC dS dB cb res g log).2.2.2 = critsCount log)
    ∧ critsCount log ≤ critsCount (attackDamageRoll s t p dC dS dB cb res g log).2.2.2
    ∧ ((attackDamageRoll s t p dC dS dB cb res g log).1.crit = true →
        res.crit = true ∨ 0 < critsCount (attackDamageRoll s t p dC dS dB cb res g log).2.2.2) := by
  have hH : critsCount (Hits s.stats.speedAdj t.stats.speedAdj p g log).2.2 = critsCount log := by
    rw [(Hits_parts s.stats.speedAdj t.stats.speedAdj p g log).2, critsCount_append,
      critsCount_hits_entry]
    omega
  unfold attackDamageRoll
  dsimp only
  split
  · rename_i hT
    cases hrc : res.crit
    · simp only [hrc, Bool.false_eq_true, if_false]
      have hC : critsCount (Crits s t
          (rollDice dC dS (Hits s.stats.speedAdj t.stats.speedAdj p g log).2.1).2
          (Hits s.stats.speedAdj t.stats.speedAdj p g log).2.2).2.2
          = critsCount log + 1 := by
        rw [(Crits_parts s t _ _).2, critsCount_append, critsCount_crits_entry, hH]
      split <;> dsimp only
      · exact ⟨by simp [hT], by simp, by omega, fun _ => Or.inr (by omega)⟩
      · exact ⟨by simp [hT], by simp, by omega, fun hcc => absurd hcc (by simp)⟩
    · simp only [hrc, if_true]
      exact ⟨by simp [hT], fun _ => ⟨by trivial, hH⟩, by omega, fun _ => Or.inl (by trivial)⟩
  · rename_i hF
    have hF0 : (Hits s.stats.speedAdj t.stats.speedAdj p g log).1 = false := by
      revert hF
      cases (Hits s.stats.speedAdj t.stats.speedAdj p g log).1 <;> simp
    dsimp only
    exact ⟨by simp [hF0], fun hc => ⟨hc, hH⟩, by omega, fun hc => Or.inl hc⟩

/-- One discrete attack preserves the all-miss invariant: if the hit flag is
still false afterwards, the cumulative target damage and reduction are still
zero. -/
theorem resolveAttack_P9 (env : Env) (s t : Character) (sT tT : SourceTarget)
    (p : Int) (wi : WeaponInfo) (pm : String) (st : CombatState)
    (h9 : st.res.hit = false →
      st.res.damageToTarget = 0 ∧ st.res.damageToTargetReduction = 0) :
    (resolveAttack env s t sT tT p wi pm st).res.hit = false →
      (resolveAttack env s t sT tT p wi pm st).res.damageToTarget = 0
      ∧ (resolveAttack env s t sT tT p wi pm st).res.damageToTargetReduction = 0 := by
  intro hf
  obtain ⟨ph, pc, pb, pl, pa, ps, pt, pd, pr⟩ := resolveAttack_proj env s t sT tT p wi pm st
  have hhit := (attackDamageRoll_crit_log s t p wi.dCount wi.dSides wi.dBonus
    wi.critBuffs st.res st.rng st.log).1
  rw [ph, hhit] at hf
  rw [Bool.or_eq_false_iff] at hf
  obtain ⟨hHf, hres⟩ := hf
  have hadr := attackDamageRoll_false_eq s t p wi.dCount wi.dSides wi.dBonus
    wi.critBuffs st.res st.rng st.log hHf
  obtain ⟨hz1, hz2⟩ := h9 hres
  obtain ⟨az1, az2⟩ := applyDefense_zero_dmg t.defense
    (Hits s.stats.speedAdj t.stats.speedAdj p st.rng st.log).2.1
  rw [pd, pr, hadr]
  dsimp only
  rw [az1, az2, hz1, hz2]
  exact ⟨rfl, rfl⟩

/-- The per-weapon attack loop preserves the all-miss invariant. -/
theorem attackLoop_P9 (env : Env) (s t : Character) (sT tT : SourceTarget)
    (p : Int) (wi : WeaponInfo) (pm : String) :
    ∀ (n : Nat) (st : CombatState),
    (st.res.hit = false → st.res.damageToTarget = 0 ∧ st.res.damageToTargetReduction = 0) →
    (attackLoop env s t sT tT p wi pm n st).res.hit = false →
      (attackLoop env s t sT tT p wi pm n st).res.damageToTarget = 0
      ∧ (attackLoop env s t sT tT p wi pm n st).res.damageToTargetReduction = 0 := by
  intro n
  induction n with
  | zero => intro st h; exact h
  | succ n ih =>
    intro st h
    exact ih _ (resolveAttack_P9 env s t sT tT p wi pm st h)

/-- The weapon loop preserves the all-miss invariant. -/
theorem weaponLoop_P9 (env : Env) (s t : Character) (sT tT : SourceTarget)
    (nw : Nat) (pm : String) :
    ∀ (ws : List Item) (st : CombatState),
    (st.res.hit = false → st.res.damageToTarget = 0 ∧ st.res.damageToTargetReduction = 0) →
    (weaponLoop env s t sT tT nw pm ws st).res.hit = false →
      (weaponLoop env s t sT tT nw pm ws st).res.damageToTarget = 0
      ∧ (weaponLoop env s t sT tT nw pm ws st).res.damageToTargetReduction = 0 := by
  intro ws
  induction ws with
  | nil => intro st h; exact h
  | cons w ws ih =>
    intro st h
    exact ih _ (attackLoop_P9 env s t sT tT _ _ pm _ st h)

/-- One attack cycle preserves the all-miss invariant. -/
theorem combatCycle_P9 (env : Env) (s t : Character) (sT tT : SourceTarget)
    (st : CombatState)
    (h : st.res.hit = false → st.res.damageToTarget = 0 ∧ st.res.damageToTargetReduction = 0) :
    (combatCycle env s t sT tT st).res.hit = false →
      (combatCycle env s t sT tT st).res.damageToTarget = 0
      ∧ (combatCycle env s t sT tT st).res.damageToTargetReduction = 0 := by
  unfold combatCycle
  dsimp only
  split
  · exact weaponLoop_P9 env s t sT tT _ _ _ _ h
  · exact weaponLoop_P9 env s t sT tT _ _ _ _ h

/-- The attack-cycle loop preserves the all-miss invariant. -/
theorem roundLoop_P9 (env : Env) (s t : Character) (sT tT : SourceTarget) :
    ∀ (n : Nat) (st : CombatState),
    (st.res.hit = false → st.res.damageToTarget = 0 ∧ st.res.damageToTargetReduction = 0) →
    (roundLoop env s t sT tT n st).res.hit = false →
      (roundLoop env s t sT tT n st).res.damageToTarget = 0
      ∧ (roundLoop env s t sT tT n st).res.damageToTargetReduction = 0 := by
  intro n
  induction n with
  | zero => intro st h; exact h
  | succ n ih =>
    intro st h
    exact ih _ (combatCycle_P9 env s t sT tT st h)

/-- A Both Weapons audit entry is not a crit roll. -/
theorem critsCount_bw_entry (r : Nat) (tgt : Int) :
    critsCount [⟨RollLabel.bothWeapons, r, tgt⟩] = 0 := rfl

/-- Weapon selection logs at most a Both Weapons roll, never a crit roll. -/
theorem selectWeapons_parts (c : Character) (ws : List Item) (g : List Nat)
    (log : List RollLogEntry) :
    critsCount (selectWeapons c ws g log).2.2 = critsCount log := by
  unfold selectWeapons
  dsimp only
  split
  · dsimp only
    split <;> dsimp only
    · rw [critsCount_append, critsCount_bw_entry]
      omega
  · rfl

/-- Crit-flag and crit-roll bookkeeping for one discrete attack, plus
preservation of the aggro record. -/
theorem resolveAttack_crit_log (env : Env) (s t : Character) (sT tT : SourceTarget)
    (p : Int) (wi : WeaponInfo) (pm : String) (st : CombatState) :
    (st.res.crit = true →
      (resolveAttack env s t sT tT p wi pm st).res.crit = true
      ∧ critsCount (resolveAttack env s t sT tT p wi pm st).log = critsCount st.log)
    ∧ critsCount st.log ≤ critsCount (resolveAttack env s t sT tT p wi pm st).log
    ∧ ((resolveAttack env s t sT tT p wi pm st).res.crit = true →
        st.res.crit = true ∨ 0 < critsCount (resolveAttack env s t sT tT p wi pm st).log)
    ∧ (resolveAttack env s t sT tT p wi pm st).aggro = st.aggro
    ∧ (resolveAttack env s t sT tT p wi pm st).aggroSets = st.aggroSets := by
  obtain ⟨ph, pc, pb, pl, pa, ps, pt, pd, pr⟩ := resolveAttack_proj env s t sT tT p wi pm st
  obtain ⟨h1, h2, h3, h4⟩ := attackDamageRoll_crit_log s t p wi.dCount wi.dSides
    wi.dBonus wi.critBuffs st.res st.rng st.log
  rw [pc, pl]
  exact ⟨h2, h3, h4, pa, ps⟩

/-- Crit-flag and crit-roll bookkeeping lifted over the per-weapon attack
loop. -/
theorem attackLoop_crit_log (env : Env) (s t : Character) (sT tT : SourceTarget)
    (p : Int) (wi : WeaponInfo) (pm : String) :
    ∀ (n : Nat) (st : CombatState),
    (st.res.crit = true →
      (attackLoop env s t sT tT p wi pm n st).res.crit = true
      ∧ critsCount (attackLoop env s t sT tT p wi pm n st).log = critsCount st.log)
    ∧ critsCount st.log ≤ critsCount (attackLoop env s t sT tT p wi pm n st).log
    ∧ ((attackLoop env s t sT tT p wi pm n st).res.crit = true →
        st.res.crit = true ∨ 0 < critsCount (attackLoop env s t sT tT p wi pm n st).log)
    ∧ (attackLoop env s t sT tT p wi pm n st).aggro = st.aggro
    ∧ (attackLoop env s t sT tT p wi pm n st).aggroSets = st.aggroSets := by
  intro n
  induction n with
  | zero => intro st; exact ⟨fun h => ⟨h, rfl⟩, Nat.le_refl _, fun h => Or.inl h, rfl, rfl⟩
  | succ n ih =>
    intro st
    simp only [attackLoop]
    obtain ⟨r1, r2, r3, r4, r5⟩ := resolveAttack_crit_log env s t sT tT p wi pm st
    obtain ⟨i1, i2, i3, i4, i5⟩ := ih (resolveAttack env s t sT tT p wi pm st)
    refine ⟨fun h => ?_, by omega, fun h => ?_, by rw [i4, r4], by rw [i5, r5]⟩
    · obtain ⟨a1, a2⟩ := r1 h
      obtain ⟨b1, b2⟩ := i1 a1
      exact ⟨b1, by omega⟩
    · rcases i3 h with h1 | h1
      · rcases r3 h1 with h2 | h2
        · exact Or.inl h2
        · exact Or.inr (by omega)
      · exact Or.inr h1

/-- Crit-flag and crit-roll bookkeeping lifted over the weapon loop. -/
theorem weaponLoop_crit_log (env : Env) (s t : Character) (sT tT : SourceTarget)
    (nw : Nat) (pm : String) :
    ∀ (ws : List Item) (st : CombatState),
    (st.res.crit = true →
      (weaponLoop env s t sT tT nw pm ws st).res.crit = true
      ∧ critsCount (weaponLoop env s t sT tT nw pm ws st).log = critsCount st.log)
    ∧ critsCount st.log ≤ critsCount (weaponLoop env s t sT tT nw pm ws st).log
    ∧ ((weaponLoop env s t sT tT nw pm ws st).res.crit = true →
        st.res.crit = true ∨ 0 < critsCount (weaponLoop env s t sT tT nw pm ws st).log)
    ∧ (weaponLoop env s t sT tT nw pm ws st).aggro = st.aggro
    ∧ (weaponLoop env s t sT tT nw pm ws st).aggroSets = st.aggroSets := by
  intro ws
  induction ws with
  | nil => intro st; exact ⟨fun h => ⟨h, rfl⟩, Nat.le_refl _, fun h => Or.inl h, rfl, rfl⟩
  | cons w ws ih =>
    intro st
    simp only [weaponLoop]
    obtain ⟨r1, r2, r3, r4, r5⟩ := attackLoop_crit_log env s t sT tT
      (dualWieldPenalty nw s.dualWieldLevel) (weaponParams env s w) pm
      (weaponParams env s w).attacks st
    obtain ⟨i1, i2, i3, i4, i5⟩ := ih (attackLoop env s t sT tT
      (dualWieldPenalty nw s.dualWieldLevel) (weaponParams env s w) pm
      (weaponParams env s w).attacks st)
    refine ⟨fun h => ?_, by omega, fun h => ?_, by rw [i4, r4], by rw [i5, r5]⟩
    · obtain ⟨a1, a2⟩ := r1 h
      obtain ⟨b1, b2⟩ := i1 a1
      exact ⟨b1, by omega⟩
    · rcases i3 h with h1 | h1
      · rcases r3 h1 with h2 | h2
        · exact Or.inl h2
        · exact Or.inr (by omega)
      · exact Or.inr h1

/-- An attack cycle entered in the default targeting mode performs no aggro
mutation and keeps the crit bookkeeping. -/
theorem combatCycle_default_crit_log (env : Env) (s t : Character)
    (sT tT : SourceTarget) (st : CombatState)
    (ha : st.aggro.type = AggroType.defaultAttack) :
    (st.res.crit = true →
      (combatCycle env s t sT tT st).res.crit = true
      ∧ critsCount (combatCycle env s t sT tT st).log = critsCount st.log)
    ∧ critsCount st.log ≤ critsCount (combatCycle env s t sT tT st).log
    ∧ ((combatCycle env s t sT tT st).res.crit = true →
        st.res.crit = true ∨ 0 < critsCount (combatCycle env s t sT tT st).log)
    ∧ (combatCycle env s t sT tT st).aggro = st.aggro
    ∧ (combatCycle env s t sT tT st).aggroSets = st.aggroSets := by
  have hsel := selectWeapons_parts s (buildWeapons s) st.rng st.log
  unfold combatCycle
  dsimp only
  rw [if_neg (by rw [ha]; simp)]
  dsimp only
  obtain ⟨w1, w2, w3, w4, w5⟩ := weaponLoop_crit_log env s t sT tT
    (selectWeapons s (buildWeapons s) st.rng st.log).1.length ""
    (selectWeapons s (buildWeapons s) st.rng st.log).1
    { st with
      rng := (selectWeapons s (buildWeapons s) st.rng st.log).2.1
      log := (selectWeapons s (buildWeapons s) st.rng st.log).2.2 }
  refine ⟨fun h => ?_, ?_, fun h => ?_, by rw [w4], by rw [w5]⟩
  · obtain ⟨a1, a2⟩ := w1 h
    exact ⟨a1, by rw [a2]; exact hsel⟩
  · calc critsCount st.log
        = critsCount (selectWeapons s (buildWeapons s) st.rng st.log).2.2 := hsel.symm
      _ ≤ _ := w2
  · rcases w3 h with h1 | h1
    · exact Or.inl h1
    · exact Or.inr h1

/-- An attack cycle entered in backstab mode flags the round crit without any
crit roll, consumes the one-shot mode back to default, and counts exactly one
SetAggro mutation. -/
theorem combatCycle_backstab_crit_log (env : Env) (s t : Character)
    (sT tT : SourceTarget) (st : CombatState)
    (ha : st.aggro.type = AggroType.backStab) :
    (combatCycle env s t sT tT st).res.crit = true
    ∧ critsCount (combatCycle env s t sT tT st).log = critsCount st.log
    ∧ (combatCycle env s t sT tT st).aggro = { st.aggro with type := AggroType.defaultAttack }
    ∧ (combatCycle env s t sT tT st).aggroSets = st.aggroSets + 1 := by
  have hsel := selectWeapons_parts s (buildWeapons s) st.rng st.log
  unfold combatCycle
  dsimp only
  rw [if_pos ha]
  dsimp only
  obtain ⟨w1, w2, w3, w4, w5⟩ := weaponLoop_crit_log env s t sT tT
    (selectWeapons s (buildWeapons s) st.rng st.log).1.length
    "<ansi fg=\"magenta-bold\">*[BACKSTAB]*</ansi> "
    (selectWeapons s (buildWeapons s) st.rng st.log).1
    { st with
      res := { st.res with crit := true }
      aggro := { st.aggro with type := AggroType.defaultAttack }
      aggroSets := st.aggroSets + 1
      rng := (selectWeapons s (buildWeapons s) st.rng st.log).2.1
      log := (selectWeapons s (buildWeapons s) st.rng st.log).2.2 }
  obtain ⟨c1, c2⟩ := w1 rfl
  exact ⟨c1, by rw [c2]; exact hsel, by rw [w4], by rw [w5]⟩

/-- The attack-cycle loop under the default targeting mode: no aggro
mutation, and crit bookkeeping as in a single cycle. -/
theorem roundLoop_default_crit_log (env : Env) (s t : Character)
    (sT tT : SourceTarget) :
    ∀ (n : Nat) (st : CombatState), st.aggro.type = AggroType.defaultAttack →
    (st.res.crit = true →
      (roundLoop env s t sT tT n st).res.crit = true
      ∧ critsCount (roundLoop env s t sT tT n st).log = critsCount st.log)
    ∧ critsCount st.log ≤ critsCount (roundLoop env s t sT tT n st).log
    ∧ ((roundLoop env s t sT tT n st).res.crit = true →
        st.res.crit = true ∨ 0 < critsCount (roundLoop env s t sT tT n st).log)
    ∧ (roundLoop env s t sT tT n st).aggro = st.aggro
    ∧ (roundLoop env s t sT tT n st).aggroSets = st.aggroSets := by
  intro n
  induction n with
  | zero =>
    intro st _
    exact ⟨fun h => ⟨h, rfl⟩, Nat.le_refl _, fun h => Or.inl h, rfl, rfl⟩
  | succ n ih =>
    intro st ha
    simp only [roundLoop]
    obtain ⟨c1, c2, c3, c4, c5⟩ := combatCycle_default_crit_log env s t sT tT st ha
    obtain ⟨i1, i2, i3, i4, i5⟩ := ih (combatCycle env s t sT tT st) (by rw [c4]; exact ha)
    refine ⟨fun h => ?_, by omega, fun h => ?_, by rw [i4, c4], by rw [i5, c5]⟩
    · obtain ⟨a1, a2⟩ := c1 h
      obtain ⟨b1, b2⟩ := i1 a1
      exact ⟨b1, by omega⟩
    · rcases i3 h with h1 | h1
      · rcases c3 h1 with h2 | h2
        · exact Or.inl h2
        · exact Or.inr (by omega)
      · exact Or.inr h1

/-- Every resolver call performs at least one attack cycle. -/
theorem attackCount_pos (s t : Int) : 1 ≤ attackCount s t := by
  simp only [attackCount, ceilDiv]
  split <;> omega

/-- A round entered in backstab mode is flagged crit with zero crit rolls in
the audit log, returns the shared aggro record reset to the default attack
mode, and performs the SetAggro mutation exactly once. -/
theorem calculateCombat_backstab (env : Env) (s t : Character)
    (sT tT : SourceTarget) (g : List Nat)
    (hbs : s.aggro.type = AggroType.backStab) :
    (calculateCombat env s t sT tT g).res.crit = true
    ∧ critsCount (calculateCombat env s t sT tT g).log = 0
    ∧ (calculateCombat env s t sT tT g).aggro = { s.aggro with type := AggroType.defaultAttack }
    ∧ (calculateCombat env s t sT tT g).aggroSets = 1 := by
  unfold calculateCombat
  dsimp only
  obtain ⟨k, hk⟩ : ∃ k, (attackCount s.stats.speedAdj t.stats.speedAdj).toNat = k + 1 := by
    have := attackCount_pos s.stats.speedAdj t.stats.speedAdj
    exact ⟨(attackCount s.stats.speedAdj t.stats.speedAdj).toNat - 1, by omega⟩
  rw [hk]
  simp only [roundLoop]
  obtain ⟨b1, b2, b3, b4⟩ := combatCycle_backstab_crit_log env s t sT tT
    { res := {}, rng := g, log := [], aggro := s.aggro, aggroSets := 0 } hbs
  obtain ⟨d1, d2, d3, d4, d5⟩ := roundLoop_default_crit_log env s t sT tT k
    (combatCycle env s t sT tT { res := {}, rng := g, log := [], aggro := s.aggro, aggroSets := 0 })
    (by rw [b3])
  obtain ⟨e1, e2⟩ := d1 b1
  refine ⟨e1, ?_, by rw [d4, b3], by rw [d5, b4]⟩
  rw [e2, b2]
  rfl

/-- A round entered in the default targeting mode can only be flagged crit by
an actual crit roll recorded in the audit log (no auto-crit). -/
theorem calculateCombat_no_autocrit (env : Env) (s t : Character)
    (sT tT : SourceTarget) (g : List Nat)
    (hd : s.aggro.type = AggroType.defaultAttack) :
    (calculateCombat env s t sT tT g).res.crit = true →
      0 < critsCount (calculateCombat env s t sT tT g).log := by
  intro hc
  unfold calculateCombat at hc ⊢
  dsimp only at hc ⊢
  obtain ⟨d1, d2, d3, d4, d5⟩ := roundLoop_default_crit_log env s t sT tT
    (attackCount s.stats.speedAdj t.stats.speedAdj).toNat
    { res := {}, rng := g, log := [], aggro := s.aggro, aggroSets := 0 } hd
  rcases d3 hc with h | h
  · exact absurd h (by simp)
  · exact h

/-- A stream head below the clamped to-hit percentage makes Hits succeed. -/
theorem Hits_head_true (aS dS m : Int) (h : Nat) (rest : List Nat)
    (log : List RollLogEntry)
    (hh : ((h % 100 : Nat) : Int) < effectiveToHit aS dS m) :
    (Hits aS dS m (h :: rest) log).1 = true := by
  show decide (((if 100 = 0 then 0 else h % 100 : Nat) : Int) < effectiveToHit aS dS m) = true
  rw [if_neg (by omega)]
  exact decide_eq_true hh

/-- A stream head at or above the clamped to-hit percentage makes Hits
fail. -/
theorem Hits_head_false (aS dS m : Int) (h : Nat) (rest : List Nat)
    (log : List RollLogEntry)
    (hh : ¬(((h % 100 : Nat) : Int) < effectiveToHit aS dS m)) :
    (Hits aS dS m (h :: rest) log).1 = false := by
  show decide (((if 100 = 0 then 0 else h % 100 : Nat) : Int) < effectiveToHit aS dS m) = false
  rw [if_neg (by omega)]
  exact decide_eq_false hh

/-- Claim C2: entering the resolver in backstab mode flags the round as a
critical with no crit roll anywhere in the audit log, resets the attacker's
targeting mode on the caller's live record to the default attack exactly once
per triggering call (aggroSets = 1), and a second resolver call made
immediately afterwards on the same attacker does not auto-crit: its crit flag
can only be set by a logged crit roll. -/
theorem c2_backstab_one_shot (env env2 : Env) (user : UserRecord)
    (mob mob2 : MobRecord) (g g2 : List Nat)
    (hbs : user.character.aggro.type = AggroType.backStab) :
    (AttackPlayerVsMob env user mob g).1.res.crit = true
    ∧ critsCount (AttackPlayerVsMob env user mob g).1.log = 0
    ∧ (AttackPlayerVsMob env user mob g).1.aggroSets = 1
    ∧ (AttackPlayerVsMob env user mob g).2.1.character.aggro.type = AggroType.defaultAttack
    ∧ ((AttackPlayerVsMob env2 (AttackPlayerVsMob env user mob g).2.1 mob2 g2).1.res.crit = true →
        0 < critsCount (AttackPlayerVsMob env2 (AttackPlayerVsMob env user mob g).2.1 mob2 g2).1.log) := by
  obtain ⟨b1, b2, b3, b4⟩ := calculateCombat_backstab env user.character mob.character
    SourceTarget.user SourceTarget.mob g hbs
  have haggro : (AttackPlayerVsMob env user mob g).2.1.character.aggro.type
      = AggroType.defaultAttack := by
    show (calculateCombat env user.character mob.character SourceTarget.user
      SourceTarget.mob g).aggro.type = _
    rw [b3]
  exact ⟨b1, b2, b4, haggro, fun hc =>
    calculateCombat_no_autocrit env2 (AttackPlayerVsMob env user mob g).2.1.character
      mob2.character SourceTarget.user SourceTarget.mob g2 haggro hc⟩

/-- Claim C10: once the round-level crit flag is set, any later discrete
attack whose hit roll passes is resolved as a crit without a new crit roll
(the crit-roll count of the audit log is unchanged), overwrites the on-crit
buff set with the current weapon's, and receives the full crit damage bonus
dieCount*dieSides + flatBonus on top of its dice roll (stated with a zero
target defense rating so mitigation does not obscure the added amount). -/
theorem c10_sticky_round_crit (env : Env) (s t : Character) (sT tT : SourceTarget)
    (p : Int) (wi : WeaponInfo) (pm : String) (st : CombatState)
    (h : Nat) (rest : List Nat) (hrng : st.rng = h :: rest)
    (hhit : ((h % 100 : Nat) : Int) < effectiveToHit s.stats.speedAdj t.stats.speedAdj p)
    (hcrit : st.res.crit = true) (htd : t.defense = 0) :
    (resolveAttack env s t sT tT p wi pm st).res.hit = true
    ∧ (resolveAttack env s t sT tT p wi pm st).res.crit = true
    ∧ (resolveAttack env s t sT tT p wi pm st).res.buffTarget = wi.critBuffs
    ∧ critsCount (resolveAttack env s t sT tT p wi pm st).log = critsCount st.log
    ∧ (resolveAttack env s t sT tT p wi pm st).res.damageToTarget
      = st.res.damageToTarget
        + (((rollDice wi.dCount wi.dSides rest).1 : Int) + (wi.dBonus : Int)
          + ((wi.dCount * wi.dSides + wi.dBonus : Nat) : Int)) := by
  have hT : (Hits s.stats.speedAdj t.stats.speedAdj p st.rng st.log).1 = true := by
    rw [hrng]
    exact Hits_head_true _ _ _ _ _ _ hhit
  have hadr := attackDamageRoll_crit_true_eq s t p wi.dCount wi.dSides wi.dBonus
    wi.critBuffs st.res st.rng st.log hT hcrit
  have hgpart : (Hits s.stats.speedAdj t.stats.speedAdj p st.rng st.log).2.1 = rest := by
    rw [(Hits_parts s.stats.speedAdj t.stats.speedAdj p st.rng st.log).1, hrng]
    rfl
  have hH : critsCount (Hits s.stats.speedAdj t.stats.speedAdj p st.rng st.log).2.2
      = critsCount st.log := by
    rw [(Hits_parts s.stats.speedAdj t.stats.speedAdj p st.rng st.log).2, critsCount_append,
      critsCount_hits_entry]
    omega
  obtain ⟨ph, pc, pb, pl, pa, ps, pt, pd, pr⟩ := resolveAttack_proj env s t sT tT p wi pm st
  refine ⟨?_, ?_, ?_, ?_, ?_⟩
  · rw [ph, hadr]
  · rw [pc, hadr]
  · rw [pb, hadr]
  · rw [pl, hadr]
    exact hH
  · rw [pd, hadr]
    dsimp only
    rw [htd, applyDefense_zero_rating]
    dsimp only
    rw [hgpart]

/-- Claim C9 as amended: a discrete attack whose hit check fails contributes
0 to DamageToTarget and leaves the hit flag unchanged; a round whose hit flag
is false (all attacks missed) has zero cumulative damage and reduction to the
target; but every discrete attack, hit or miss, appends exactly one rendered
message to the to-target channel, so an all-miss round is not message-free. -/
theorem c9_miss_zero_damage :
    (∀ (env : Env) (s t : Character) (sT tT : SourceTarget) (p : Int)
      (wi : WeaponInfo) (pm : String) (st : CombatState) (h : Nat) (rest : List Nat),
      st.rng = h :: rest →
      ¬(((h % 100 : Nat) : Int) < effectiveToHit s.stats.speedAdj t.stats.speedAdj p) →
      (resolveAttack env s t sT tT p wi pm st).res.damageToTarget = st.res.damageToTarget
      ∧ (resolveAttack env s t sT tT p wi pm st).res.hit = st.res.hit)
    ∧ (∀ (env : Env) (s t : Character) (sT tT : SourceTarget) (p : Int)
      (wi : WeaponInfo) (pm : String) (st : CombatState),
      (resolveAttack env s t sT tT p wi pm st).res.toTarget.length
        = st.res.toTarget.length + 1)
    ∧ (∀ (env : Env) (s t : Character) (sT tT : SourceTarget) (g : List Nat),
      (calculateCombat env s t sT tT g).res.hit = false →
      (calculateCombat env s t sT tT g).res.damageToTarget = 0
      ∧ (calculateCombat env s t sT tT g).res.damageToTargetReduction = 0) := by
  refine ⟨fun env s t sT tT p wi pm st h rest hrng hm => ?_,
    fun env s t sT tT p wi pm st => ?_,
    fun env s t sT tT g hf => ?_⟩
  · have hF : (Hits s.stats.speedAdj t.stats.speedAdj p st.rng st.log).1 = false := by
      rw [hrng]
      exact Hits_head_false _ _ _ _ _ _ hm
    have hadr := attackDamageRoll_false_eq s t p wi.dCount wi.dSides wi.dBonus
      wi.critBuffs st.res st.rng st.log hF
    obtain ⟨ph, pc, pb, pl, pa, ps, pt, pd, pr⟩ := resolveAttack_proj env s t sT tT p wi pm st
    obtain ⟨az1, az2⟩ := applyDefense_zero_dmg t.defense
      (Hits s.stats.speedAdj t.stats.speedAdj p st.rng st.log).2.1
    constructor
    · rw [pd, hadr]
      dsimp only
      rw [az2]
      omega
    · rw [ph, hadr]
  · obtain ⟨ph, pc, pb, pl, pa, ps, pt, pd, pr⟩ := resolveAttack_proj env s t sT tT p wi pm st
    rw [pt, (attackDamageRoll_basic s t p wi.dCount wi.dSides wi.dBonus
      wi.critBuffs st.res st.rng st.log).2.2.2.2.2]
  · exact roundLoop_P9 env s t sT tT _ _ (fun _ => ⟨rfl, rfl⟩) hf

/-- Claim C3 as amended: the hidden-source visibility rule lives in the
pre-attack GetWaitMessages routine (combat.go lines 163-181): for a hidden
source the to-target and both room channels receive nothing, and only the
to-source channel may receive (at most one) rendered string. -/
theorem c3_hidden_wait_suppression (env : Env) (stepType : Nat) (s t : Character)
    (sT tT : SourceTarget) (hh : s.hasHidden = true) :
    (GetWaitMessages env stepType s t sT tT).toTarget = []
    ∧ (GetWaitMessages env stepType s t sT tT).toSourceRoom = []
    ∧ (GetWaitMessages env stepType s t sT tT).toTargetRoom = []
    ∧ (GetWaitMessages env stepType s t sT tT).toSource.length ≤ 1 := by
  unfold GetWaitMessages
  dsimp only
  rw [hh]
  simp only [if_true]
  (repeat' split) <;> simp [AttackResult.sendToSource]

/-- Witness for claim C2 at a concrete backstabbing attacker. -/
theorem c2_backstab_one_shot_witness :
    (AttackPlayerVsMob envT { userId := 1, character := srcBS }
      { character := baseChar, damageTaken := [] } [0, 1, 150, 7]).1.res.crit = true
    ∧ critsCount (AttackPlayerVsMob envT { userId := 1, character := srcBS }
      { character := baseChar, damageTaken := [] } [0, 1, 150, 7]).1.log = 0
    ∧ (AttackPlayerVsMob envT { userId := 1, character := srcBS }
      { character := baseChar, damageTaken := [] } [0, 1, 150, 7]).1.aggroSets = 1
    ∧ (AttackPlayerVsMob envT { userId := 1, character := srcBS }
      { character := baseChar, damageTaken := [] } [0, 1, 150, 7]).2.1.character.aggro.type
      = AggroType.defaultAttack :=
  have h := c2_backstab_one_shot envT envT { userId := 1, character := srcBS }
    { character := baseChar, damageTaken := [] } { character := baseChar, damageTaken := [] }
    [0, 1, 150, 7] [] (by decide)
  ⟨h.1, h.2.1, h.2.2.1, h.2.2.2.1⟩

/-- Witness for claim C10 at a concrete crit-flagged round state. -/
theorem c10_sticky_round_crit_witness :
    (resolveAttack envT srcDef0 tgtDef0 SourceTarget.user SourceTarget.mob 0 wiC10 ""
      stC10).res.crit = true
    ∧ (resolveAttack envT srcDef0 tgtDef0 SourceTarget.user SourceTarget.mob 0 wiC10 ""
      stC10).res.buffTarget = wiC10.critBuffs
    ∧ critsCount (resolveAttack envT srcDef0 tgtDef0 SourceTarget.user SourceTarget.mob 0
      wiC10 "" stC10).log = critsCount stC10.log
    ∧ (resolveAttack envT srcDef0 tgtDef0 SourceTarget.user SourceTarget.mob 0 wiC10 ""
      stC10).res.damageToTarget
      = stC10.res.damageToTarget + (((rollDice wiC10.dCount wiC10.dSides [1]).1 : Int)
        + (wiC10.dBonus : Int) + ((wiC10.dCount * wiC10.dSides + wiC10.dBonus : Nat) : Int)) :=
  have h := c10_sticky_round_crit envT srcDef0 tgtDef0 SourceTarget.user SourceTarget.mob
    0 wiC10 "" stC10 0 [1] rfl (by decide) rfl rfl
  ⟨h.2.1, h.2.2.1, h.2.2.2.1, h.2.2.2.2⟩

/-- Counterexample for claim C9: a round in which every discrete attack misses
does return zero damage and a false hit flag, but the to-target channel is not
empty: the miss narration is still sent to the target each attack. -/
theorem c9_counterexample :
    (calculateCombat envT srcSpd1 baseChar SourceTarget.user SourceTarget.mob
      [96, 3, 4]).res.hit = false
    ∧ (calculateCombat envT srcSpd1 baseChar SourceTarget.user SourceTarget.mob
      [96, 3, 4]).res.damageToTarget = 0
    ∧ (calculateCombat envT srcSpd1 baseChar SourceTarget.user SourceTarget.mob
      [96, 3, 4]).res.toTarget ≠ [] := by
  decide

/-- Witness for claim C9 at a concrete missing attack and an all-miss round. -/
theorem c9_miss_zero_damage_witness :
    ((resolveAttack envT srcSpd1 baseChar SourceTarget.user SourceTarget.mob 0 wiC10 ""
      stC9).res.damageToTarget = stC9.res.damageToTarget
    ∧ (resolveAttack envT srcSpd1 baseChar SourceTarget.user SourceTarget.mob 0 wiC10 ""
      stC9).res.hit = stC9.res.hit)
    ∧ ((calculateCombat envT srcSpd1 baseChar SourceTarget.user SourceTarget.mob
      [96, 3, 4]).res.damageToTarget = 0
    ∧ (calculateCombat envT srcSpd1 baseChar SourceTarget.user SourceTarget.mob
      [96, 3, 4]).res.damageToTargetReduction = 0) :=
  ⟨c9_miss_zero_damage.1 envT srcSpd1 baseChar SourceTarget.user SourceTarget.mob 0 wiC10
      "" stC9 96 [] rfl (by decide),
    c9_miss_zero_damage.2.2 envT srcSpd1 baseChar SourceTarget.user SourceTarget.mob
      [96, 3, 4] (by decide)⟩

/-- Counterexample for claim C3: in calculateCombat a discrete attack from a
hidden source still sends rendered strings to the to-target and source-room
channels (the hidden check exists only in GetWaitMessages). -/
theorem c3_counterexample :
    srcHid.hasHidden = true
    ∧ (calculateCombat envT srcHid baseChar SourceTarget.user SourceTarget.mob
      [0, 1, 99, 0, 0]).res.toTarget ≠ []
    ∧ (calculateCombat envT srcHid baseChar SourceTarget.user SourceTarget.mob
      [0, 1, 99, 0, 0]).res.toSourceRoom ≠ [] := by
  decide

/-- Witness for claim C3 at a concrete hidden attacker. -/
theorem c3_hidden_wait_suppression_witness :
    (GetWaitMessages envT 0 srcHid baseChar SourceTarget.user SourceTarget.mob).toTarget = []
    ∧ (GetWaitMessages envT 0 srcHid baseChar SourceTarget.user SourceTarget.mob).toSourceRoom = []
    ∧ (GetWaitMessages envT 0 srcHid baseChar SourceTarget.user SourceTarget.mob).toTargetRoom = []
    ∧ (GetWaitMessages envT 0 srcHid baseChar SourceTarget.user
        SourceTarget.mob).toSource.length ≤ 1 :=
  c3_hidden_wait_suppression envT 0 srcHid baseChar SourceTarget.user SourceTarget.mob
    (by decide)

end GoMud
